import Mathlib

/-!
Verification of the MyST-flavored Markdown rendering pipeline
(`src/utils/markdown.ts`): shallow embedding of the math resolver,
figure resolver, directive engine, role engine and path rewriter,
working over `List Char` so every definition is executable and every
regex pass of the source is modelled as an explicit left-to-right
scanner with the same leftmost/lazy/global-replace semantics.
-/

/-- Strings are modelled as lists of characters. -/
abbrev Str := List Char

/-- Conversion from Lean string literals. -/
def str (s : String) : Str := s.data

/-- JavaScript `\s` (restricted to the ASCII whitespace the inputs use). -/
def isWsChar (c : Char) : Bool :=
  c = ' ' || c = '\t' || c = '\n' || c = '\r' || c = '\x0b' || c = '\x0c'

/-- JavaScript `\w` word characters. -/
def isWordChar (c : Char) : Bool :=
  ('a' ≤ c && c ≤ 'z') || ('A' ≤ c && c ≤ 'Z') || ('0' ≤ c && c ≤ '9') || c = '_'

/-- Characters allowed in a directive name (`[\w:-]`). -/
def isNameChar (c : Char) : Bool :=
  isWordChar c || c = ':' || c = '-'

/-- ASCII letters and digits (used as a hypothesis charset in theorems). -/
def isAlphaNum (c : Char) : Bool :=
  ('a' ≤ c && c ≤ 'z') || ('A' ≤ c && c ≤ 'Z') || ('0' ≤ c && c ≤ '9')

/-- JavaScript `String.prototype.trimStart`. -/
def trimLeft (s : Str) : Str := s.dropWhile isWsChar

/-- JavaScript `String.prototype.trimEnd`. -/
def trimRight (s : Str) : Str := (s.reverse.dropWhile isWsChar).reverse

/-- JavaScript `String.prototype.trim`. -/
def trimStr (s : Str) : Str := trimRight (trimLeft s)

/-- JavaScript `String.prototype.split` with a single-character separator. -/
def splitOnChar (sep : Char) : Str → List Str
  | [] => [[]]
  | c :: t =>
    let r := splitOnChar sep t
    if c = sep then [] :: r
    else
      match r with
      | [] => [[c]]
      | h :: t2 => (c :: h) :: t2

/-- `Array.prototype.join` with a separator string. -/
def joinSep (sep : Str) : List Str → Str
  | [] => []
  | [x] => x
  | x :: xs => x ++ sep ++ joinSep sep xs

/-- If `pat` is a prefix of `s`, return the remainder after it. -/
def dropPre? : Str → Str → Option Str
  | [], s => some s
  | _ :: _, [] => none
  | p :: ps, c :: cs => if p = c then dropPre? ps cs else none

/-- Boolean prefix test. -/
def isPre (pat s : Str) : Bool := (dropPre? pat s).isSome

/-- Split at the first occurrence of `pat`: returns the part before the
occurrence and the part after it (leftmost match, like a lazy regex capture). -/
def splitFirst (pat : Str) : Str → Option (Str × Str)
  | [] => none
  | c :: t =>
    match dropPre? pat (c :: t) with
    | some r => some ([], r)
    | none =>
      match splitFirst pat t with
      | some (a, b) => some (c :: a, b)
      | none => none

/-- JavaScript `String.prototype.includes` (for nonempty patterns). -/
def containsSub (pat s : Str) : Bool := (splitFirst pat s).isSome

/-- Index of the first occurrence of a substring. -/
def subPos (pat s : Str) : Option Nat :=
  match splitFirst pat s with
  | some p => some p.1.length
  | none => none

/-- JavaScript `s.replace(/pat/g, repl)` for a literal pattern: global,
leftmost, non-overlapping, the replacement is not rescanned. -/
def replaceAllLit (pat repl : Str) : Nat → Str → Str
  | 0, s => s
  | _ + 1, [] => []
  | fuel + 1, c :: t =>
    match dropPre? pat (c :: t) with
    | some r => repl ++ replaceAllLit pat repl fuel r
    | none => c :: replaceAllLit pat repl fuel t

/-- JavaScript `s.replace(pat, repl)` with a string pattern: first occurrence only. -/
def replaceFirstLit (pat repl s : Str) : Str :=
  match splitFirst pat s with
  | some (a, b) => a ++ repl ++ b
  | none => s

/-- Generic model of a global regex-replace pass: scan left to right; at each
position either the matcher consumes a match (producing new state, the
replacement text and the rest of the input) or the scan advances one
character.  Replacement text is never rescanned by the same pass, matching
the semantics of `String.prototype.replace` with a `/g` regex. -/
def scanReplace {σ : Type} (step : σ → Str → Option (σ × Str × Str)) :
    Nat → σ → Str → σ × Str
  | 0, st, s => (st, s)
  | _ + 1, st, [] => (st, [])
  | fuel + 1, st, c :: t =>
    match step st (c :: t) with
    | some (st1, repl, rest) =>
      let r := scanReplace step fuel st1 rest
      (r.1, repl ++ r.2)
    | none =>
      let r := scanReplace step fuel st t
      (r.1, c :: r.2)

/-- Decimal rendering of a number (template-literal interpolation of a counter). -/
def numStr (n : Nat) : Str := (toString n).data

/-! ## The equation registry (`equations` / `eqCounter` in `parseMystMath`) -/

/-- The mutable state of `parseMystMath`: the equation counter and the
label registry `equations : Record<string, {number, id}>` (the `id` field
always equals the label, so only the number is stored; newer entries are
prepended so that lookup finds the latest assignment, as in a JS object). -/
structure MathState where
  counter : Nat
  registry : List (Str × Nat)
deriving Repr, DecidableEq

/-- Look up a label in the registry (`equations[label]`). -/
def regLookup (st : MathState) (label : Str) : Option Nat :=
  match st.registry.find? (fun p => p.1 = label) with
  | some p => some p.2
  | none => none

/-- `eqCounter++; equations[label] = { number: eqCounter, id: label }`. -/
def regAdd (st : MathState) (label : Str) : MathState :=
  { counter := st.counter + 1, registry := (label, st.counter + 1) :: st.registry }

/-! ## Shared HTML fragments of the math resolver -/

/-- Numbered equation block (`<div class="equation-block" id=...>`). -/
def eqBlockNum (label math : Str) (n : Nat) : Str :=
  str "<div class=\"equation-block\" id=\"" ++ label ++ str "\">" ++
  str "\\[" ++ math ++ str "\\]" ++
  str "<span class=\"equation-number\">(" ++ numStr n ++ str ")</span>" ++
  str "</div>"

/-- Unnumbered equation block. -/
def eqBlockPlain (math : Str) : Str :=
  str "<div class=\"equation-block\">" ++ str "\\[" ++ math ++ str "\\]" ++ str "</div>"

/-- Resolved cross-reference anchor. -/
def refAnchor (label : Str) (n : Nat) : Str :=
  str "<a href=\"#" ++ label ++ str "\" class=\"eq-ref\">(" ++ numStr n ++ str ")</a>"

/-- Pending (unresolved) cross-reference anchor. -/
def pendingAnchor (label : Str) : Str :=
  str "<a href=\"#" ++ label ++ str "\" class=\"eq-ref eq-pending\" data-label=\"" ++
  label ++ str "\">(?)</a>"

/-- `escapeMath`: double every backslash. -/
def escapeMath (m : Str) : Str :=
  m.foldr (fun c acc => if c = '\\' then '\\' :: '\\' :: acc else c :: acc) []

/-! ## Matcher helpers shared by several passes -/

/-- The backtracking effect of `\s*\n` in a regex: consume the leading
whitespace run up to and including its last newline; fail if the leading
whitespace run contains no newline. -/
def wsThenNl : Str → Option Str
  | [] => none
  | c :: t =>
    if isWsChar c then
      match wsThenNl t with
      | some r => some r
      | none => if c = '\n' then some t else none
    else none

/-- Match `^:(\w+):\s*(.*)$` against an (already trimmed) line, returning
the option key and value. -/
def matchOptLine (l : Str) : Option (Str × Str) :=
  match l with
  | ':' :: rest =>
    let key := rest.takeWhile isWordChar
    let after := rest.dropWhile isWordChar
    if key = [] then none
    else
      match after with
      | ':' :: r3 => some (key, r3.dropWhile isWsChar)
      | _ => none
  | _ => none

/-- Latest-write-wins lookup in an option list accumulated by prepending. -/
def optsGet (opts : List (Str × Str)) (k : Str) : Option Str :=
  match opts.find? (fun p => p.1 = k) with
  | some p => some p.2
  | none => none

/-! ## Pass 1: ```` ```{math} ```` directive blocks -/

/-- Matcher for ``/```\{math\}\s*\n([\s\S]*?)```/g`` together with its
replacer: option lines (`:key: value` on a trimmed line) are collected
(later duplicates overwrite), all other lines form the math body; a
nonempty `label` option numbers the equation and enters it in the registry. -/
def mathDirStep (st : MathState) (s : Str) : Option (MathState × Str × Str) :=
  match dropPre? (str "```{math}") s with
  | none => none
  | some r1 =>
    match wsThenNl r1 with
    | none => none
    | some r2 =>
      match splitFirst (str "```") r2 with
      | none => none
      | some (body, rest) =>
        let lines := splitOnChar '\n' body
        let opts := lines.foldl
          (fun (acc : List (Str × Str)) line =>
            match matchOptLine (trimStr line) with
            | some kv => kv :: acc
            | none => acc) []
        let mathLines := lines.filter (fun line => (matchOptLine (trimStr line)).isNone)
        let mathContent := trimStr (joinSep (str "\n") mathLines)
        match optsGet opts (str "label") with
        | some label =>
          if label = [] then some (st, eqBlockPlain mathContent, rest)
          else
            let st1 := regAdd st label
            some (st1, eqBlockNum label mathContent st1.counter, rest)
        | none => some (st, eqBlockPlain mathContent, rest)

/-! ## Pass 2: `$$ ... $$ (label)` -/

/-- The `\s*\(([^)]+)\)` lookahead after a candidate closing `$$`. -/
def dollarLabelTail (s : Str) : Option (Str × Str) :=
  match s.dropWhile isWsChar with
  | '(' :: r2 =>
    let lab := r2.takeWhile (fun c => c ≠ ')')
    let r3 := r2.dropWhile (fun c => c ≠ ')')
    match lab, r3 with
    | _ :: _, ')' :: r4 => some (lab, r4)
    | _, _ => none
  | _ => none

/-- Lazy search for the closing `$$` of pass 2: the body grows until some
`$$` occurrence is followed by `\s*\(label\)`.  Returns (body, label, rest). -/
def dollarLabelClose : Nat → Str → Option (Str × Str × Str)
  | 0, _ => none
  | _ + 1, [] => none
  | fuel + 1, c :: t =>
    match dropPre? (str "$$") (c :: t) with
    | some r =>
      match dollarLabelTail r with
      | some (lab, rest) => some ([], lab, rest)
      | none =>
        match dollarLabelClose fuel t with
        | some (b, lab, rest) => some (c :: b, lab, rest)
        | none => none
    | none =>
      match dollarLabelClose fuel t with
      | some (b, lab, rest) => some (c :: b, lab, rest)
      | none => none

/-- Matcher+replacer for `/\$\$\s*([\s\S]*?)\$\$\s*\(([^)]+)\)/g`. -/
def dollarLabelStep (st : MathState) (s : Str) : Option (MathState × Str × Str) :=
  match dropPre? (str "$$") s with
  | none => none
  | some r1 =>
    let body0 := r1.dropWhile isWsChar
    match dollarLabelClose (body0.length + 1) body0 with
    | none => none
    | some (body, lab, rest) =>
      let st1 := regAdd st lab
      some (st1, eqBlockNum lab (trimStr body) st1.counter, rest)

/-! ## Pass 3: AMS environments -/

/-- First full match of `/\\label\{([^}]+)\}/` in a string: returns the text
before the command, the captured label and the text after it. -/
def findLabelCmd : Nat → Str → Option (Str × Str × Str)
  | 0, _ => none
  | _ + 1, [] => none
  | fuel + 1, c :: t =>
    match dropPre? (str "\\label\x7b") (c :: t) with
    | some r =>
      let lab := r.takeWhile (fun x => x ≠ '}')
      let r2 := r.dropWhile (fun x => x ≠ '}')
      match lab, r2 with
      | _ :: _, '}' :: r3 => some ([], lab, r3)
      | _, _ =>
        match findLabelCmd fuel t with
        | some (p, l, q) => some (c :: p, l, q)
        | none => none
    | none =>
      match findLabelCmd fuel t with
      | some (p, l, q) => some (c :: p, l, q)
      | none => none

/-- The AMS environment names, in the exact order of the source's loop
(the source writes `equation\*` for the regex; the literal name is stored
here).  Note that `split` appears without a starred form. -/
def amsEnvs : List Str :=
  [str "equation", str "equation*", str "align", str "align*",
   str "gather", str "gather*", str "multline", str "multline*",
   str "alignat", str "alignat*", str "split"]

/-- Matcher+replacer for one AMS environment
(`\\begin\{env\}([\s\S]*?)\\end\{env\}`): the first `\label{...}` inside
(if any) is kept textually but assigns a number and registry entry. -/
def amsStep (env : Str) (st : MathState) (s : Str) : Option (MathState × Str × Str) :=
  match dropPre? (str "\\begin\x7b" ++ env ++ str "\x7d") s with
  | none => none
  | some r1 =>
    match splitFirst (str "\\end\x7b" ++ env ++ str "\x7d") r1 with
    | none => none
    | some (envContent, rest) =>
      let wrap := fun (idAttr numberSpan : Str) =>
        str "<div class=\"equation-block ams-env\"" ++ idAttr ++ str ">" ++
        str "\\[" ++ str "\\begin\x7b" ++ env ++ str "\x7d" ++ envContent ++
        str "\\end\x7b" ++ env ++ str "\x7d" ++ str "\\]" ++ numberSpan ++ str "</div>"
      match findLabelCmd (envContent.length + 1) envContent with
      | some (_, lab, _) =>
        let st1 := regAdd st lab
        some (st1,
          wrap (str " id=\"" ++ lab ++ str "\"")
            (str "<span class=\"equation-number\">(" ++ numStr st1.counter ++
             str ")</span>"), rest)
      | none => some (st, wrap [] [], rest)

/-! ## Pass 4: generic `$$ ... $$` -/

/-- First full match of `/\\label\s*\{([^}]+)\}/` (whitespace allowed before
the brace); returns (before, label, after). -/
def findLabelSpaced : Nat → Str → Option (Str × Str × Str)
  | 0, _ => none
  | _ + 1, [] => none
  | fuel + 1, c :: t =>
    match dropPre? (str "\\label") (c :: t) with
    | some r =>
      match r.dropWhile isWsChar with
      | '{' :: r1 =>
        let lab := r1.takeWhile (fun x => x ≠ '}')
        let r2 := r1.dropWhile (fun x => x ≠ '}')
        match lab, r2 with
        | _ :: _, '}' :: r3 => some ([], lab, r3)
        | _, _ =>
          match findLabelSpaced fuel t with
          | some (p, l, q) => some (c :: p, l, q)
          | none => none
      | _ =>
        match findLabelSpaced fuel t with
        | some (p, l, q) => some (c :: p, l, q)
        | none => none
    | none =>
      match findLabelSpaced fuel t with
      | some (p, l, q) => some (c :: p, l, q)
      | none => none

/-- Matcher+replacer for `/\$\$\s*([\s\S]*?)\$\$/g`: a label found by
`\label\s*\{...\}` is removed from the math and numbers the equation. -/
def dollarStep (st : MathState) (s : Str) : Option (MathState × Str × Str) :=
  match dropPre? (str "$$") s with
  | none => none
  | some r1 =>
    let body0 := r1.dropWhile isWsChar
    match splitFirst (str "$$") body0 with
    | none => none
    | some (body, rest) =>
      match findLabelSpaced (body.length + 1) body with
      | some (pre, lab, post) =>
        let st1 := regAdd st lab
        some (st1, eqBlockNum lab (trimStr (pre ++ post)) st1.counter, rest)
      | none => some (st, eqBlockPlain (trimStr body), rest)

/-! ## Passes 5 and 6: cross references -/

/-- Matcher+replacer for ``/\{eq\}`([^`]+)`/g``: resolve against the registry,
falling back to a pending anchor.  The state is only read. -/
def eqRefStep (st : MathState) (s : Str) : Option (MathState × Str × Str) :=
  match dropPre? (str "{eq}`") s with
  | none => none
  | some r1 =>
    let lab := r1.takeWhile (fun c => c ≠ '`')
    let r2 := r1.dropWhile (fun c => c ≠ '`')
    match lab, r2 with
    | _ :: _, '`' :: rest =>
      match regLookup st lab with
      | some n => some (st, refAnchor lab n, rest)
      | none => some (st, pendingAnchor lab, rest)
    | _, _ => none

/-- Matcher+replacer for `/\[\]\(#([^)]+)\)/g`. -/
def linkRefStep (st : MathState) (s : Str) : Option (MathState × Str × Str) :=
  match dropPre? (str "[](#") s with
  | none => none
  | some r1 =>
    let lab := r1.takeWhile (fun c => c ≠ ')')
    let r2 := r1.dropWhile (fun c => c ≠ ')')
    match lab, r2 with
    | _ :: _, ')' :: rest =>
      match regLookup st lab with
      | some n => some (st, refAnchor lab n, rest)
      | none => some (st, pendingAnchor lab, rest)
    | _, _ => none

/-! ## Passes 7 and 8: inline math -/

/-- Matcher+replacer for ``/\{math(?:\s+[^}]+)?\}`([^`]+)`/g``. -/
def mathRoleStep (st : MathState) (s : Str) : Option (MathState × Str × Str) :=
  match dropPre? (str "\x7bmath") s with
  | none => none
  | some r1 =>
    let afterBrace : Option Str :=
      match r1 with
      | '}' :: rr => some rr
      | c :: _ =>
        if isWsChar c then
          let r2 := r1.dropWhile isWsChar
          let arg := r2.takeWhile (fun x => x ≠ '}')
          let r3 := r2.dropWhile (fun x => x ≠ '}')
          match arg, r3 with
          | _ :: _, '}' :: rr => some rr
          | _, _ => none
        else none
      | [] => none
    match afterBrace with
    | none => none
    | some r4 =>
      match r4 with
      | '`' :: r5 =>
        let txt := r5.takeWhile (fun c => c ≠ '`')
        let r6 := r5.dropWhile (fun c => c ≠ '`')
        match txt, r6 with
        | _ :: _, '`' :: rest =>
          some (st, str "\\\\(" ++ escapeMath txt ++ str "\\\\)", rest)
        | _, _ => none
      | _ => none

/-- Matcher+replacer for `/\$([^$\n]+)\$/g` (inline dollar math). -/
def inlineMathStep (st : MathState) (s : Str) : Option (MathState × Str × Str) :=
  match dropPre? (str "$") s with
  | none => none
  | some r1 =>
    let txt := r1.takeWhile (fun c => c ≠ '$' && c ≠ '\n')
    let r2 := r1.dropWhile (fun c => c ≠ '$' && c ≠ '\n')
    match txt, r2 with
    | _ :: _, '$' :: rest =>
      some (st, str "\\\\(" ++ escapeMath txt ++ str "\\\\)", rest)
    | _, _ => none

/-! ## Pass 9: `:::{math}` colon-fenced directive -/

/-- Match `^:label:\s*(\S+)` on a trimmed line. -/
def colonLabelMatch (t : Str) : Option Str :=
  match dropPre? (str ":label:") t with
  | none => none
  | some r =>
    let tok := (r.dropWhile isWsChar).takeWhile (fun c => !(isWsChar c))
    match tok with
    | [] => none
    | _ => some tok

/-- Match `^:enumerated:\s*(true|false)` on a trimmed line. -/
def colonEnumMatch (t : Str) : Option Bool :=
  match dropPre? (str ":enumerated:") t with
  | none => none
  | some r =>
    let r2 := r.dropWhile isWsChar
    if isPre (str "true") r2 then some true
    else if isPre (str "false") r2 then some false
    else none

/-- Matcher+replacer for `/:::\{math\}\s*\n([\s\S]*?):::/g`: per line the
label and enumerated options are recognised (last occurrence wins, the
default for `enumerated` is true); all other lines accumulate into the math
body; the equation is numbered exactly when enumerated and labeled. -/
def colonMathStep (st : MathState) (s : Str) : Option (MathState × Str × Str) :=
  match dropPre? (str ":::{math}") s with
  | none => none
  | some r1 =>
    match wsThenNl r1 with
    | none => none
    | some r2 =>
      match splitFirst (str ":::") r2 with
      | none => none
      | some (body, rest) =>
        let lines := splitOnChar '\n' body
        let acc := lines.foldl
          (fun (a : Str × Bool × Str) line =>
            let t := trimStr line
            match colonLabelMatch t with
            | some lab => (lab, a.2.1, a.2.2)
            | none =>
              match colonEnumMatch t with
              | some b => (a.1, b, a.2.2)
              | none => (a.1, a.2.1, a.2.2 ++ line ++ ['\n']))
          ([], true, [])
        let label := acc.1
        let enumerated := acc.2.1
        let mathContent := trimStr acc.2.2
        if enumerated && label ≠ [] then
          let st1 := regAdd st label
          some (st1, eqBlockNum label mathContent st1.counter, rest)
        else some (st, eqBlockPlain mathContent, rest)

/-! ## `parseMystMath`: the composed math resolver -/

/-- Run one global-replace pass with enough fuel. -/
def runPass (step : MathState → Str → Option (MathState × Str × Str))
    (x : MathState × Str) : MathState × Str :=
  scanReplace step (x.2.length + 1) x.1 x.2

/-- The math resolver with its final state exposed: the nine replace passes
of `parseMystMath` run in source order on shared mutable state. -/
def parseMystMathSt (content : Str) : MathState × Str :=
  let r1 := runPass mathDirStep (⟨0, []⟩, content)
  let r2 := runPass dollarLabelStep r1
  let r3 := amsEnvs.foldl (fun acc env => runPass (amsStep env) acc) r2
  let r4 := runPass dollarStep r3
  let r5 := runPass eqRefStep r4
  let r6 := runPass linkRefStep r5
  let r7 := runPass mathRoleStep r6
  let r8 := runPass inlineMathStep r7
  runPass colonMathStep r8

/-- `parseMystMath` as in the source: only the transformed text. -/
def parseMystMath (content : Str) : Str := (parseMystMathSt content).2

/-! ## `parseMystFigures`: target definitions and figure directives -/

/-- Match the whole-line target definition `^\(([^)]+)\)=!\[([^\]]*)\]\(([^)]+)\)$`
returning (name, alt, src). -/
def matchTargetLine (l : Str) : Option (Str × Str × Str) :=
  match l with
  | '(' :: r1 =>
    let name := r1.takeWhile (fun c => c ≠ ')')
    let r2 := r1.dropWhile (fun c => c ≠ ')')
    match name, r2 with
    | _ :: _, ')' :: r3 =>
      match dropPre? (str "=![") r3 with
      | some r4 =>
        let alt := r4.takeWhile (fun c => c ≠ ']')
        let r5 := r4.dropWhile (fun c => c ≠ ']')
        match r5 with
        | ']' :: '(' :: r6 =>
          let src := r6.takeWhile (fun c => c ≠ ')')
          let r7 := r6.dropWhile (fun c => c ≠ ')')
          match src, r7 with
          | _ :: _, [')'] => some (name, alt, src)
          | _, _ => none
        | _ => none
      | none => none
    | _, _ => none
  | _ => none

/-- GitHub blob URLs are normalized to raw-content URLs. -/
def normalizeBlobUrl (src : Str) : Str :=
  if containsSub (str "github.com") src && containsSub (str "/blob/") src then
    replaceFirstLit (str "/blob/") (str "/")
      (replaceFirstLit (str "github.com") (str "raw.githubusercontent.com") src)
  else src

/-- Process all target-definition lines: collect the target table (newest
first, i.e. latest definition wins on lookup) and replace each matching line
with a comment marker. -/
def runTargetLines : List Str → List (Str × Str × Str) →
    List (Str × Str × Str) × List Str
  | [], tg => (tg, [])
  | l :: ls, tg =>
    match matchTargetLine l with
    | some (name, alt, src) =>
      let r := runTargetLines ls ((name, alt, normalizeBlobUrl src) :: tg)
      (r.1, (str "<!-- target:" ++ name ++ str " defined -->") :: r.2)
    | none =>
      let r := runTargetLines ls tg
      (r.1, l :: r.2)

/-- Lookup in the target table. -/
def targetsGet (tg : List (Str × Str × Str)) (name : Str) : Option (Str × Str) :=
  match tg.find? (fun p => p.1 = name) with
  | some p => some p.2
  | none => none

/-- First-nonempty choice, modelling JavaScript `a || b` on strings. -/
def strOr (a b : Str) : Str := if a = [] then b else a

/-- JavaScript `endsWith`. -/
def strEndsWith (suffix s : Str) : Bool := isPre suffix.reverse s.reverse

/-- ASCII lowercasing (JS `toLowerCase` on the ASCII inputs used here). -/
def toLowerStr (s : Str) : Str := s.map Char.toLower

/-- The fixed allow-list of video file extensions. -/
def videoExtensions : List Str :=
  [str ".mp4", str ".webm", str ".ogg", str ".mov", str ".avi"]

/-- The replacer body of the figure-directive regex: split the body into
`:key: value` options and caption lines, resolve `#name` back references
against the target table, and emit figure/video/error markup. -/
def figureHtml (targets : List (Str × Str × Str)) (arg body : Str) : Str :=
  let split := (splitOnChar '\n' body).foldl
    (fun (a : List (Str × Str) × List Str) line =>
      let t := trimStr line
      match matchOptLine t with
      | some kv => (kv :: a.1, a.2)
      | none =>
        if t ≠ [] then (a.1, a.2 ++ [line])
        else if a.2 ≠ [] then (a.1, a.2 ++ [line])
        else a) ([], [])
  let opts := split.1
  let caption := trimStr (joinSep (str "\n") split.2)
  let resolved : Str × Str :=
    match arg with
    | '#' :: targetName =>
      match targetsGet targets targetName with
      | some (alt, src) => (src, alt)
      | none => ([], str "Target \"" ++ targetName ++ str "\" not found")
    | _ => (arg, [])
  let actualImagePath := resolved.1
  let defaultAlt := resolved.2
  let altText := strOr ((optsGet opts (str "alt")).getD [])
    (strOr defaultAlt
      ((caption.map (fun c => if c = '\n' then ' ' else c)).take 100))
  let width := match optsGet opts (str "width") with
    | some w => if w = [] then [] else str " width=\"" ++ w ++ str "\""
    | none => []
  let alignClass := match optsGet opts (str "align") with
    | some a => if a = [] then [] else str " align-" ++ a
    | none => []
  let labelId := match optsGet opts (str "label") with
    | some l => if l = [] then [] else str " id=\"" ++ l ++ str "\""
    | none => []
  let nameId := match optsGet opts (str "name") with
    | some n => if n = [] then [] else str " id=\"" ++ n ++ str "\""
    | none => []
  let idAttr := strOr labelId nameId
  let capHtml := if caption = [] then []
    else str "<figcaption>" ++ caption ++ str "</figcaption>"
  if actualImagePath = [] then
    str "<figure class=\"myst-figure" ++ alignClass ++ str "\"" ++ idAttr ++ str ">" ++
    str "<div class=\"figure-error\">Image target not found</div>" ++ capHtml ++
    str "</figure>"
  else
    let lower := toLowerStr actualImagePath
    if videoExtensions.any (fun ext => strEndsWith ext lower) then
      str "<figure class=\"myst-figure myst-video" ++ alignClass ++ str "\"" ++ idAttr ++
      str "><video controls preload=\"metadata\"" ++ width ++
      str "><source src=\"" ++ actualImagePath ++ str "\" type=\"video/" ++
      (splitOnChar '.' actualImagePath).getLastD [] ++
      str "\">Your browser does not support the video tag.</video>" ++ capHtml ++
      str "</figure>"
    else
      str "<figure class=\"myst-figure" ++ alignClass ++ str "\"" ++ idAttr ++
      str "><img src=\"" ++ actualImagePath ++ str "\" alt=\"" ++ altText ++ str "\"" ++
      width ++ str " loading=\"lazy\" />" ++ capHtml ++ str "</figure>"

/-- Matcher for ``/```\{figure\}\s*(\S+)\s*\n([\s\S]*?)```/g``. -/
def figureStep (targets : List (Str × Str × Str)) (_ : Unit) (s : Str) :
    Option (Unit × Str × Str) :=
  match dropPre? (str "```{figure}") s with
  | none => none
  | some r1 =>
    let r2 := r1.dropWhile isWsChar
    let arg := r2.takeWhile (fun c => !(isWsChar c))
    let r3 := r2.dropWhile (fun c => !(isWsChar c))
    match arg with
    | [] => none
    | _ =>
      match wsThenNl r3 with
      | none => none
      | some r4 =>
        match splitFirst (str "```") r4 with
        | none => none
        | some (body, rest) => some ((), figureHtml targets arg body, rest)

/-- `parseMystFigures`: the target-definition pass (line by line, matching
the `gm` regex) followed by the figure-directive pass. -/
def parseMystFigures (content : Str) : Str :=
  let lines := splitOnChar '\n' content
  let collected := runTargetLines lines []
  let processed := joinSep (str "\n") collected.2
  (scanReplace (figureStep collected.1) (processed.length + 1) () processed).2

/-! ## The directive engine -/

/-- `escapeHtml` from the source (the five sequential character replaces,
which are equivalent to a single character-wise substitution). -/
def escapeHtml (text : Str) : Str :=
  text.foldr (fun c acc =>
    if c = '&' then str "&amp;" ++ acc
    else if c = '<' then str "&lt;" ++ acc
    else if c = '>' then str "&gt;" ++ acc
    else if c = '"' then str "&quot;" ++ acc
    else if c = '\'' then str "&#039;" ++ acc
    else c :: acc) []

/-- UTF-8 encoding of one character (for the Buffer-based base64 encoding). -/
def utf8Char (c : Char) : List Nat :=
  let n := c.toNat
  if n < 128 then [n]
  else if n < 2048 then [192 + n / 64, 128 + n % 64]
  else if n < 65536 then [224 + n / 4096, 128 + (n / 64) % 64, 128 + n % 64]
  else [240 + n / 262144, 128 + (n / 4096) % 64, 128 + (n / 64) % 64, 128 + n % 64]

/-- The base64 alphabet. -/
def b64Char (n : Nat) : Char :=
  (str "ABCDEFGHIJKLMNOPQRSTUVWXYZabcdefghijklmnopqrstuvwxyz0123456789+/").getD n 'A'

/-- Standard base64 with padding over a byte list. -/
def base64Bytes : List Nat → Str
  | [] => []
  | [a] => [b64Char (a / 4), b64Char ((a % 4) * 16), '=', '=']
  | [a, b] => [b64Char (a / 4), b64Char ((a % 4) * 16 + b / 16), b64Char ((b % 16) * 4), '=']
  | a :: b :: c :: rest =>
    [b64Char (a / 4), b64Char ((a % 4) * 16 + b / 16),
     b64Char ((b % 16) * 4 + c / 64), b64Char (c % 64)] ++ base64Bytes rest

/-- `Buffer.from(s).toString('base64')`. -/
def base64Str (s : Str) : Str :=
  base64Bytes (s.foldr (fun c acc => utf8Char c ++ acc) [])

/-- JavaScript `parseInt` (decimal) followed by `|| 1`: not-a-number and 0
both fall back to 1. -/
def parseIntOr1 (s : Str) : Int :=
  let t := trimLeft s
  let signed : Int × Str :=
    match t with
    | '-' :: r => (-1, r)
    | '+' :: r => (1, r)
    | _ => (1, t)
  let ds := signed.2.takeWhile (fun c => '0' ≤ c && c ≤ '9')
  match ds with
  | [] => 1
  | _ =>
    let n : Nat := ds.foldl (fun a c => a * 10 + (c.toNat - 48)) 0
    if n = 0 then 1 else signed.1 * n

/-- The slug transformation `/[^a-z0-9]+/g → '-'` (input already lowercased):
every maximal run of non-alphanumeric characters becomes a single hyphen. -/
def squashNonAlnum : Nat → Str → Str
  | 0, s => s
  | _ + 1, [] => []
  | fuel + 1, c :: t =>
    if ('a' ≤ c && c ≤ 'z') || ('0' ≤ c && c ≤ '9') then
      c :: squashNonAlnum fuel t
    else
      '-' :: squashNonAlnum fuel
        (t.dropWhile (fun x => !(('a' ≤ x && x ≤ 'z') || ('0' ≤ x && x ≤ '9'))))

/-- Glossary/term anchor ids: `'term-' + lower.replace(/[^a-z0-9]+/g, '-')`. -/
def termId (t : Str) : Str :=
  let low := toLowerStr t
  str "term-" ++ squashNonAlnum (low.length + 1) low

/-- `optionLines.find(o => o.startsWith(pre))`, with the prefix stripped and
the value trimmed (as every directive generator does). -/
def findOptVal (optionLines : List Str) (pre : Str) : Option Str :=
  match optionLines.find? (fun o => isPre pre o) with
  | some o => some (trimStr (o.drop pre.length))
  | none => none

/-- `optionLines.some(o => o.startsWith(pre))`. -/
def hasOptPre (optionLines : List Str) (pre : Str) : Bool :=
  optionLines.any (fun o => isPre pre o)

/-- `name.charAt(0).toUpperCase() + name.slice(1)`. -/
def capitalizeStr : Str → Str
  | [] => []
  | c :: t => c.toUpper :: t

/-- YouTube watch/short URLs are converted to embed URLs (the conversion
performed inline in the `iframe` branch of `generateDirectiveHtml`):
the first `[?&]v=([^&]+)` parameter, or the `youtu.be/` path segment. -/
def findVParam : Nat → Str → Option Str
  | 0, _ => none
  | _ + 1, [] => none
  | fuel + 1, c :: t =>
    if c = '?' || c = '&' then
      match t with
      | 'v' :: '=' :: r =>
        match r.takeWhile (fun x => x ≠ '&') with
        | [] => findVParam fuel t
        | vid => some vid
      | _ => findVParam fuel t
    else findVParam fuel t

/-- The YouTube URL conversion of the `iframe` directive. -/
def youtubeEmbedUrl (url : Str) : Str :=
  if containsSub (str "youtube.com/watch") url then
    match findVParam (url.length + 1) url with
    | some vid => str "https://www.youtube.com/embed/" ++ vid
    | none => url
  else if containsSub (str "youtu.be/") url then
    match splitFirst (str "youtu.be/") url with
    | some (_, after) =>
      let seg := match splitFirst (str "youtu.be/") after with
        | some (a, _) => a
        | none => after
      match seg.takeWhile (fun c => c ≠ '?') with
      | [] => url
      | vid => str "https://www.youtube.com/embed/" ++ vid
    | none => url
  else url

/-- The admonition directive names. -/
def admonitionNames : List Str :=
  [str "note", str "warning", str "tip", str "important",
   str "caution", str "danger", str "hint", str "seealso"]

/-- The `prf:*` proof directive names. -/
def prfNames : List Str :=
  [str "prf:proof", str "prf:theorem", str "prf:lemma", str "prf:definition",
   str "prf:criterion", str "prf:remark", str "prf:conjecture", str "prf:corollary",
   str "prf:algorithm", str "prf:example", str "prf:property", str "prf:observation",
   str "prf:proposition", str "prf:assumption"]

/-- The glossary body parser: terms are unindented lines, definitions are
lines starting with `:`+whitespace or with indentation; a definition before
any term is dropped. -/
def glossaryHtml (bodyContent : Str) : Str :=
  let folded := (splitOnChar '\n' bodyContent).foldl
    (fun (a : Str × Str) line =>
      if trimStr line = [] then a
      else
        let isDef :=
          (match line with
           | ':' :: c :: _ => isWsChar c
           | _ => false) ||
          (match line with
           | ' ' :: _ => true
           | '\t' :: _ => true
           | _ => false)
        if isDef then
          if a.1 ≠ [] then
            let defText := trimStr
              (match line with
               | ':' :: c :: r => if isWsChar c then r.dropWhile isWsChar else line
               | _ => line)
            (a.1, a.2 ++ str "<dd>" ++ defText ++ str "</dd>")
          else a
        else
          let term := trimStr line
          (term, a.2 ++ str "<dt id=\"" ++ termId term ++ str "\">" ++ term ++ str "</dt>"))
    ([], [])
  str "<dl class=\"myst-glossary\">" ++ folded.2 ++ str "</dl>"

/-- `generateDirectiveHtml(name, titleArg, optionLines, bodyContent)`:
dispatch over the ~20 directive kinds, with the generic `<div class="myst-...">`
fallback for unknown names. -/
def generateDirectiveHtml (name titleArg : Str) (optionLines : List Str)
    (bodyContent : Str) : Str :=
  let isOpen := optionLines.any (fun o => o = str ":open:") ||
    containsSub (str ":open:") titleArg
  if name = str "dropdown" then
    let dropdownTitle := strOr
      (trimStr (replaceFirstLit (str ":open:") [] titleArg)) (str "Details")
    str "<details class=\"dropdown\"" ++ (if isOpen then str " open" else []) ++
    str "><summary>" ++ dropdownTitle ++ str "</summary><div class=\"dropdown-content\">\n\n" ++
    bodyContent ++ str "\n\n</div></details>"
  else if admonitionNames.any (fun a => a = name) then
    let admonitionTitle := strOr titleArg (capitalizeStr name)
    str "<div class=\"admonition " ++ name ++ str "\"><div class=\"admonition-title\">" ++
    admonitionTitle ++ str "</div>\n\n" ++ bodyContent ++ str "\n\n</div>"
  else if name = str "card" then
    let cardTitle := strOr titleArg (str "Card")
    let header := match findOptVal optionLines (str ":header:") with
      | some h => h
      | none => cardTitle
    let footer := (findOptVal optionLines (str ":footer:")).getD []
    let link := (findOptVal optionLines (str ":link:")).getD []
    let opening := if link ≠ [] then
        str "<a href=\"" ++ link ++ str "\" class=\"card\" target=\"_blank\" rel=\"noopener\">"
      else str "<div class=\"card\">"
    let headerPart := if header ≠ [] then
        str "<div class=\"card-header\">" ++ header ++ str "</div>" else []
    let footerPart := if footer ≠ [] then
        str "<div class=\"card-footer\">" ++ footer ++ str "</div>" else []
    opening ++ headerPart ++ str "<div class=\"card-body\">\n\n" ++ bodyContent ++
    str "\n\n</div>" ++ footerPart ++ (if link ≠ [] then str "</a>" else str "</div>")
  else if name = str "grid" then
    let cols := strOr ((splitOnChar ' ' titleArg).getLastD []) (str "3")
    str "<div class=\"grid\" data-columns=\"" ++ cols ++ str "\">\n\n" ++ bodyContent ++
    str "\n\n</div>"
  else if name = str "tab-set" then
    str "<div class=\"tab-set\">\n\n" ++ bodyContent ++ str "\n\n</div>"
  else if name = str "tab-item" then
    let tabTitle := strOr titleArg (str "Tab")
    str "<div class=\"tab-item\" data-title=\"" ++ tabTitle ++ str "\">\n\n" ++
    bodyContent ++ str "\n\n</div>"
  else if prfNames.any (fun a => a = name) then
    let prfType := (splitOnChar ':' name).getD 1 []
    let prfTitle := capitalizeStr prfType
    let label := (findOptVal optionLines (str ":label:")).getD []
    let idAttr := if label ≠ [] then str " id=\"" ++ label ++ str "\"" else []
    str "<div class=\"prf-block prf-" ++ prfType ++ str "\"" ++ idAttr ++
    str "><div class=\"prf-title\">" ++ prfTitle ++ str "</div><div class=\"prf-content\">\n\n" ++
    bodyContent ++ str "\n\n</div></div>"
  else if name = str "iframe" then
    let url := titleArg
    let width := match findOptVal optionLines (str ":width:") with
      | some w => w
      | none => str "100%"
    let iframeTitle := match findOptVal optionLines (str ":title:") with
      | some t => t
      | none => str "Embedded content"
    let label := (findOptVal optionLines (str ":label:")).getD []
    let idAttr := if label ≠ [] then str " id=\"" ++ label ++ str "\"" else []
    let embedUrl := youtubeEmbedUrl url
    str "<figure class=\"myst-iframe\"" ++ idAttr ++ str "><iframe src=\"" ++ embedUrl ++
    str "\" width=\"" ++ width ++ str "\" height=\"400\" title=\"" ++ iframeTitle ++
    str "\" frameborder=\"0\" allow=\"accelerometer; autoplay; clipboard-write; encrypted-media; gyroscope; picture-in-picture\" allowfullscreen loading=\"lazy\"></iframe>" ++
    (if bodyContent ≠ [] then str "<figcaption>" ++ bodyContent ++ str "</figcaption>" else []) ++
    str "</figure>"
  else if name = str "video" then
    let videoPath := titleArg
    let width := (findOptVal optionLines (str ":width:")).getD []
    let height := (findOptVal optionLines (str ":height:")).getD []
    let align := match findOptVal optionLines (str ":align:") with
      | some a => a
      | none => str "center"
    let controls := hasOptPre optionLines (str ":controls:")
    let autoplay := hasOptPre optionLines (str ":autoplay:")
    let loop := hasOptPre optionLines (str ":loop:")
    let muted := hasOptPre optionLines (str ":muted:")
    let styleAttrs :=
      (if width ≠ [] then [str "width: " ++ width ++ str "px; max-width: 100%;"] else []) ++
      (if height ≠ [] then [str "height: " ++ height ++ str "px;"] else [])
    let attrs :=
      (if controls then [str "controls"] else []) ++
      (if autoplay then [str "autoplay"] else []) ++
      (if loop then [str "loop"] else []) ++
      (if muted then [str "muted"] else [])
    let alignClass := if align ≠ [] then str " align-" ++ align else []
    str "<div class=\"myst-video-container" ++ alignClass ++ str "\"><video src=\"" ++
    videoPath ++ str "\" style=\"" ++ joinSep (str " ") styleAttrs ++ str "\" " ++
    joinSep (str " ") attrs ++
    str " preload=\"metadata\">Your browser does not support the video tag.</video>" ++
    (if bodyContent ≠ [] then
      str "<div class=\"video-caption\">" ++ bodyContent ++ str "</div>" else []) ++
    str "</div>"
  else if name = str "video-compare" then
    let label := (findOptVal optionLines (str ":label:")).getD []
    let idAttr := if label ≠ [] then str " id=\"" ++ label ++ str "\"" else []
    let leftVideo := (findOptVal optionLines (str ":left:")).getD []
    let rightVideo := (findOptVal optionLines (str ":right:")).getD []
    let leftLabel := match findOptVal optionLines (str ":left-label:") with
      | some l => l
      | none => str "Left"
    let rightLabel := match findOptVal optionLines (str ":right-label:") with
      | some l => l
      | none => str "Right"
    str "<div class=\"video-compare\"" ++ idAttr ++ str ">\n            <div class=\"video-compare-container\">\n                <div class=\"video-compare-left\">\n                    <div class=\"video-compare-label\">" ++
    leftLabel ++
    str "</div>\n                    <video controls preload=\"metadata\">\n                        <source src=\"" ++
    leftVideo ++
    str "\" type=\"video/mp4\">\n                    </video>\n                </div>\n                <div class=\"video-compare-right\">\n                    <div class=\"video-compare-label\">" ++
    rightLabel ++
    str "</div>\n                    <video controls preload=\"metadata\">\n                        <source src=\"" ++
    rightVideo ++
    str "\" type=\"video/mp4\">\n                    </video>\n                </div>\n            </div>\n            <div class=\"video-compare-caption\">" ++
    bodyContent ++ str "</div>\n        </div>"
  else if name = str "exercise" then
    let label := (findOptVal optionLines (str ":label:")).getD []
    let idAttr := if label ≠ [] then str " id=\"" ++ label ++ str "\"" else []
    let extraClass := (findOptVal optionLines (str ":class:")).getD []
    let isDropdown := containsSub (str "dropdown") extraClass
    let exerciseTitle := strOr titleArg (str "Exercise")
    let classPart := if extraClass ≠ [] then str " " ++ extraClass else []
    if isDropdown then
      str "<div class=\"exercise-block" ++ classPart ++ str "\"" ++ idAttr ++
      str ">\n                <details class=\"exercise-dropdown\">\n                    <summary class=\"exercise-title\">" ++
      exerciseTitle ++
      str "</summary>\n                    <div class=\"exercise-content\">\n\n" ++
      bodyContent ++
      str "\n\n</div>\n                </details>\n            </div>"
    else
      str "<div class=\"exercise-block" ++ classPart ++ str "\"" ++ idAttr ++
      str ">\n            <div class=\"exercise-title\">" ++ exerciseTitle ++
      str "</div>\n            <div class=\"exercise-content\">\n\n" ++ bodyContent ++
      str "\n\n</div>\n        </div>"
  else if name = str "solution" then
    let linkedExercise := titleArg
    let label := (findOptVal optionLines (str ":label:")).getD []
    let idAttr := if label ≠ [] then str " id=\"" ++ label ++ str "\"" else []
    let extraClass := (findOptVal optionLines (str ":class:")).getD []
    let isDropdown := containsSub (str "dropdown") extraClass
    let solutionTitle := if linkedExercise ≠ [] then
        str "Solution to " ++ linkedExercise else str "Solution"
    let classPart := if extraClass ≠ [] then str " " ++ extraClass else []
    if isDropdown then
      str "<div class=\"solution-block" ++ classPart ++ str "\"" ++ idAttr ++
      str " data-exercise=\"" ++ linkedExercise ++
      str "\">\n                <details class=\"solution-dropdown\">\n                    <summary class=\"solution-title\">" ++
      solutionTitle ++
      str "</summary>\n                    <div class=\"solution-content\">\n\n" ++
      bodyContent ++
      str "\n\n</div>\n                </details>\n            </div>"
    else
      str "<div class=\"solution-block" ++ classPart ++ str "\"" ++ idAttr ++
      str " data-exercise=\"" ++ linkedExercise ++
      str "\">\n            <div class=\"solution-title\">" ++ solutionTitle ++
      str "</div>\n            <div class=\"solution-content\">\n\n" ++ bodyContent ++
      str "\n\n</div>\n        </div>"
  else if name = str "code" || name = str "code-block" then
    let language := strOr titleArg (str "text")
    let label := (findOptVal optionLines (str ":label:")).getD []
    let idAttr := if label ≠ [] then str " id=\"" ++ label ++ str "\"" else []
    let caption := (findOptVal optionLines (str ":caption:")).getD []
    let filename := (findOptVal optionLines (str ":filename:")).getD []
    let linenosOpt := optionLines.find? (fun o => isPre (str ":linenos:") o)
    let showLinenos := match linenosOpt with
      | some o => !(containsSub (str "false") o)
      | none => false
    let linenoStart : Int := match findOptVal optionLines (str ":lineno-start:") with
      | some v => parseIntOr1 v
      | none => 1
    let linenosClass := if showLinenos then str " line-numbers" else []
    let dataStart := if showLinenos && linenoStart ≠ 1 then
        str " data-start=\"" ++ (toString linenoStart).data ++ str "\"" else []
    str "<div class=\"code-block-container" ++ linenosClass ++ str "\"" ++ idAttr ++
    dataStart ++ str ">" ++
    (if filename ≠ [] then
      str "<div class=\"code-filename\">" ++ escapeHtml filename ++ str "</div>" else []) ++
    str "\n\n```" ++ language ++ str "\n" ++ bodyContent ++ str "\n```\n\n" ++
    (if caption ≠ [] then
      str "<div class=\"code-caption\">" ++ caption ++ str "</div>" else []) ++
    str "</div>"
  else if name = str "mermaid" then
    let label := (findOptVal optionLines (str ":label:")).getD []
    let idAttr := if label ≠ [] then str " id=\"" ++ label ++ str "\"" else []
    let caption := (findOptVal optionLines (str ":caption:")).getD []
    str "<div class=\"mermaid-container\"" ++ idAttr ++
    str "><pre class=\"mermaid\" data-code=\"" ++ base64Str bodyContent ++
    str "\"></pre>" ++
    (if caption ≠ [] then
      str "<div class=\"mermaid-caption\">" ++ caption ++ str "</div>" else []) ++
    str "</div>"
  else if name = str "glossary" then glossaryHtml bodyContent
  else
    str "<div class=\"myst-" ++ name ++ str "\">\n\n" ++ bodyContent ++ str "\n\n</div>"

/-! ## The directive scanner (`parseMystDirectives`) -/

/-- Match the opening line `^(F{3,4})\{([\w:-]+)\}\s*(.*)$` for fence
character `fc`, returning (fence length, name, trimmed title argument). -/
def fenceOpenMatch (fc : Char) (line : Str) : Option (Nat × Str × Str) :=
  let k := (line.takeWhile (fun c => c = fc)).length
  if k = 3 || k = 4 then
    match line.drop k with
    | '{' :: r1 =>
      let name := r1.takeWhile isNameChar
      let r2 := r1.dropWhile isNameChar
      match name, r2 with
      | _ :: _, '}' :: r3 => some (k, name, trimStr r3)
      | _, _ => none
    | _ => none
  else none

/-- The colon match is tried first, then the backtick match (they cannot
both succeed). -/
def matchDirOpen (line : Str) : Option (Char × Nat × Str × Str) :=
  match fenceOpenMatch ':' line with
  | some (k, n, t) => some (':', k, n, t)
  | none =>
    match fenceOpenMatch '`' line with
    | some (k, n, t) => some ('`', k, n, t)
    | none => none

/-- The depth-tracking opening pattern `^F{len}\{[\w:-]`. -/
def isFenceOpenLine (fc : Char) (len : Nat) (line : Str) : Bool :=
  isPre (List.replicate len fc ++ ['{']) line &&
    (match (line.drop (len + 1)).head? with
     | some c => isNameChar c
     | none => false)

/-- The closing pattern `^F{len}\s*$`. -/
def isFenceCloseLine (fc : Char) (len : Nat) (line : Str) : Bool :=
  isPre (List.replicate len fc) line && (line.drop len).all isWsChar

/-- Depth-counted scan for the matching closing fence: same-family opening
lines increment the depth, closing lines decrement it; the block closes
when the depth returns to zero.  Returns (body lines, lines after). -/
def findFenceEnd (fc : Char) (len : Nat) : List Str → Nat → Option (List Str × List Str)
  | [], _ => none
  | l :: ls, depth =>
    if isFenceOpenLine fc len l then
      match findFenceEnd fc len ls (depth + 1) with
      | some (b, a) => some (l :: b, a)
      | none => none
    else if isFenceCloseLine fc len l then
      if depth = 1 then some ([], ls)
      else
        match findFenceEnd fc len ls (depth - 1) with
        | some (b, a) => some (l :: b, a)
        | none => none
    else
      match findFenceEnd fc len ls depth with
      | some (b, a) => some (l :: b, a)
      | none => none

/-- The option-shape test `/^:\w+(?:-\w+)?:/`. -/
def isDirOptionShape (t : Str) : Bool :=
  match t with
  | ':' :: r =>
    let w1 := r.takeWhile isWordChar
    let r2 := r.dropWhile isWordChar
    if w1 = [] then false
    else
      match r2 with
      | ':' :: _ => true
      | '-' :: r3 =>
        let w2 := r3.takeWhile isWordChar
        let r4 := r3.dropWhile isWordChar
        if w2 = [] then false
        else
          match r4 with
          | ':' :: _ => true
          | _ => false
      | _ => false
  | _ => false

/-- The option/body split of a captured directive block: leading lines whose
trimmed form matches the option shape are collected (trimmed); blank lines
among them are skipped; the first other line ends option collection and it
and every later line are body lines, verbatim. -/
def splitOptsBody : List Str → List Str × List Str
  | [] => ([], [])
  | l :: ls =>
    let t := trimStr l
    if isDirOptionShape t then
      let r := splitOptsBody ls
      (t :: r.1, r.2)
    else if t = [] then splitOptsBody ls
    else ([], l :: ls)

/-- `replace(/\r\n/g, '\n').replace(/\r/g, '\n')`. -/
def normalizeNl (s : Str) : Str :=
  let s1 := replaceAllLit (str "\r\n") (str "\n") (s.length + 1) s
  replaceAllLit (str "\r") (str "\n") (s1.length + 1) s1

/-- The line loop of `parseMystDirectives`: on a directive opening with a
matching close, capture the block, split options from body, recursively
resolve the body, generate HTML and continue after the block; otherwise the
line passes through unchanged (unclosed directives stay literal text). -/
def dirLoop : Nat → List Str → List Str
  | 0, ls => ls
  | _ + 1, [] => []
  | fuel + 1, line :: rest =>
    match matchDirOpen line with
    | some (fc, len, name, titleArg) =>
      match findFenceEnd fc len rest 1 with
      | some (bodyLines, afterLines) =>
        let ob := splitOptsBody bodyLines
        let bodyContent := trimStr (joinSep (str "\n") ob.2)
        let parsedBody := joinSep (str "\n") (dirLoop fuel (splitOnChar '\n' bodyContent))
        generateDirectiveHtml name titleArg ob.1 parsedBody :: dirLoop fuel afterLines
      | none => line :: dirLoop fuel rest
    | none => line :: dirLoop fuel rest

/-- `parseMystDirectives`. -/
def parseMystDirectives (content : Str) : Str :=
  let lines := splitOnChar '\n' (normalizeNl content)
  joinSep (str "\n") (dirLoop (lines.length + 1) lines)

/-! ## The role engine (`parseMystRoles`) -/

/-- Backtick-delimited capture `([^`]+)` followed by the closing backtick. -/
def btCapture (s : Str) : Option (Str × Str) :=
  let txt := s.takeWhile (fun c => c ≠ '`')
  let r := s.dropWhile (fun c => c ≠ '`')
  match txt, r with
  | _ :: _, '`' :: rest => some (txt, rest)
  | _, _ => none

/-- ``{button}`Text <url>` ``: text may not contain `<` or a backtick; the
`<url>` part is optional. -/
def buttonStep (_ : Unit) (s : Str) : Option (Unit × Str × Str) :=
  match dropPre? (str "{button}`") s with
  | none => none
  | some r1 =>
    let txt := r1.takeWhile (fun c => c ≠ '<' && c ≠ '`')
    let r2 := r1.dropWhile (fun c => c ≠ '<' && c ≠ '`')
    match txt with
    | [] => none
    | _ =>
      match r2 with
      | '`' :: rest =>
        some ((), str "<a href=\"#\" class=\"btn\" role=\"button\">" ++ trimStr txt ++
          str "</a>", rest)
      | '<' :: r3 =>
        let url := r3.takeWhile (fun c => c ≠ '>')
        let r4 := r3.dropWhile (fun c => c ≠ '>')
        match url, r4 with
        | _ :: _, '>' :: '`' :: rest =>
          some ((), str "<a href=\"" ++ url ++ str "\" class=\"btn\" role=\"button\">" ++
            trimStr txt ++ str "</a>", rest)
        | _, _ => none
      | _ => none

/-- ``{term}`Text <Actual Term>` ``. -/
def termStep (_ : Unit) (s : Str) : Option (Unit × Str × Str) :=
  match dropPre? (str "{term}`") s with
  | none => none
  | some r1 =>
    let txt := r1.takeWhile (fun c => c ≠ '<' && c ≠ '`')
    let r2 := r1.dropWhile (fun c => c ≠ '<' && c ≠ '`')
    match txt with
    | [] => none
    | _ =>
      let emit := fun (term : Option Str) (rest : Str) =>
        let displayText := trimStr txt
        let termTarget := match term with
          | some t => trimStr t
          | none => displayText
        some ((), str "<a href=\"#" ++ termId termTarget ++
          str "\" class=\"myst-term\" title=\"Term: " ++ termTarget ++ str "\">" ++
          displayText ++ str "</a>", rest)
      match r2 with
      | '`' :: rest => emit none rest
      | '<' :: r3 =>
        let term := r3.takeWhile (fun c => c ≠ '>')
        let r4 := r3.dropWhile (fun c => c ≠ '>')
        match term, r4 with
        | _ :: _, '>' :: '`' :: rest => emit (some term) rest
        | _, _ => none
      | _ => none

/-- A simple role `{role}` + backtick capture wrapped between two fragments. -/
def simpleRoleStep (pat wrapL wrapR : Str) (_ : Unit) (s : Str) :
    Option (Unit × Str × Str) :=
  match dropPre? pat s with
  | none => none
  | some r1 =>
    match btCapture r1 with
    | some (txt, rest) => some ((), wrapL ++ txt ++ wrapR, rest)
    | none => none

/-- ``{abbr}`Text (Title)` `` (first form: text may not contain a backtick
or `(`; the parenthesised title is optional). -/
def abbrStep (_ : Unit) (s : Str) : Option (Unit × Str × Str) :=
  match dropPre? (str "\x7babbr\x7d`") s with
  | none => none
  | some r1 =>
    let txt := r1.takeWhile (fun c => c ≠ '`' && c ≠ '(')
    let r2 := r1.dropWhile (fun c => c ≠ '`' && c ≠ '(')
    match txt with
    | [] => none
    | _ =>
      match r2 with
      | '`' :: rest =>
        some ((), str "<abbr>" ++ trimStr txt ++ str "</abbr>", rest)
      | '(' :: r3 =>
        let title := r3.takeWhile (fun c => c ≠ ')')
        let r4 := r3.dropWhile (fun c => c ≠ ')')
        match title, r4 with
        | _ :: _, ')' :: '`' :: rest =>
          some ((), str "<abbr title=\"" ++ trimStr title ++ str "\">" ++ trimStr txt ++
            str "</abbr>", rest)
        | _, _ => none
      | _ => none

/-- A two-spelling role `\{(?:short|long)\}` with a replacement built from
the captured text. -/
def altRoleStep (patShort patLong : Str) (mk : Str → Str) (_ : Unit) (s : Str) :
    Option (Unit × Str × Str) :=
  match dropPre? patShort s with
  | some r1 =>
    match btCapture r1 with
    | some (txt, rest) => some ((), mk txt, rest)
    | none => none
  | none =>
    match dropPre? patLong s with
    | some r1 =>
      match btCapture r1 with
      | some (txt, rest) => some ((), mk txt, rest)
      | none => none
    | none => none

/-- The `{kbd}`/`{keyboard}` splitting replacement: keys are separated on
`+`, trimmed, each wrapped in its own `<kbd>` element, joined with ` + `. -/
def kbdSplitHtml (txt : Str) : Str :=
  joinSep (str " + ")
    ((splitOnChar '+' txt).map (fun k => str "<kbd>" ++ trimStr k ++ str "</kbd>"))

/-- ``{abbr}`HR (Heart Rate)` `` (second form: `([^(]+)\(([^)]+)\)`). -/
def abbr2Step (_ : Unit) (s : Str) : Option (Unit × Str × Str) :=
  match dropPre? (str "\x7babbr\x7d`") s with
  | none => none
  | some r1 =>
    let ab := r1.takeWhile (fun c => c ≠ '(')
    let r2 := r1.dropWhile (fun c => c ≠ '(')
    match ab with
    | [] => none
    | _ =>
      match r2 with
      | '(' :: r3 =>
        let title := r3.takeWhile (fun c => c ≠ ')')
        let r4 := r3.dropWhile (fun c => c ≠ ')')
        match title, r4 with
        | _ :: _, ')' :: '`' :: rest =>
          some ((), str "<abbr title=\"" ++ trimStr title ++ str "\">" ++ trimStr ab ++
            str "</abbr>", rest)
        | _, _ => none
      | _ => none

/-- Run one stateless role pass. -/
def runRolePass (step : Unit → Str → Option (Unit × Str × Str)) (s : Str) : Str :=
  (scanReplace step (s.length + 1) () s).2

/-- `parseMystRoles`: the sixteen replace passes in source order. -/
def parseMystRoles (content : Str) : Str :=
  let r1 := runRolePass buttonStep content
  let r2 := runRolePass termStep r1
  let r3 := runRolePass (simpleRoleStep (str "\x7bsub\x7d`") (str "<sub>") (str "</sub>")) r2
  let r4 := runRolePass (simpleRoleStep (str "\x7bsup\x7d`") (str "<sup>") (str "</sup>")) r3
  let r5 := runRolePass (simpleRoleStep (str "\x7bkbd\x7d`") (str "<kbd>") (str "</kbd>")) r4
  let r6 := runRolePass abbrStep r5
  let r7 := runRolePass (simpleRoleStep (str "\x7bdel\x7d`") (str "<del>") (str "</del>")) r6
  let r8 := runRolePass (simpleRoleStep (str "\x7bu\x7d`") (str "<u>") (str "</u>")) r7
  let r9 := runRolePass (simpleRoleStep (str "\x7bsc\x7d`")
    (str "<span style=\"font-variant: small-caps;\">") (str "</span>")) r8
  let r10 := runRolePass (altRoleStep (str "\x7bsub\x7d`") (str "\x7bsubscript\x7d`")
    (fun t => str "<sub>" ++ t ++ str "</sub>")) r9
  let r11 := runRolePass (altRoleStep (str "\x7bsup\x7d`") (str "\x7bsuperscript\x7d`")
    (fun t => str "<sup>" ++ t ++ str "</sup>")) r10
  let r12 := runRolePass (altRoleStep (str "\x7bkbd\x7d`") (str "\x7bkeyboard\x7d`")
    kbdSplitHtml) r11
  let r13 := runRolePass abbr2Step r12
  let r14 := runRolePass (altRoleStep (str "\x7bdel\x7d`") (str "\x7bstrike\x7d`")
    (fun t => str "<del>" ++ t ++ str "</del>")) r13
  let r15 := runRolePass (altRoleStep (str "\x7bu\x7d`") (str "\x7bunderline\x7d`")
    (fun t => str "<u>" ++ t ++ str "</u>")) r14
  runRolePass (altRoleStep (str "\x7bsc\x7d`") (str "\x7bsmallcaps\x7d`")
    (fun t => str "<span class=\"smallcaps\">" ++ t ++ str "</span>")) r15

/-! ## The path rewriter (the tail of `renderMarkdownContent`) -/

/-- The external raw-content base URL. -/
def gitHubBase : Str := str "https://raw.githubusercontent.com/ROCm/rocm-blogs/release"

/-- One global literal replace with sufficient fuel. -/
def replAll (pat repl s : Str) : Str := replaceAllLit pat repl (s.length + 1) s

/-- The relative-path rewriting block at the end of `renderMarkdownContent`:
the deployment mode (`import.meta.env.DEV`) is modelled as the explicit
`isDev` flag, and the seven sequential global replaces run in source order. -/
def rewriteSrcPaths (isDev : Bool) (category slug html : Str) : Str :=
  let baseImageUrl :=
    (if isDev then [] else gitHubBase) ++
    str "/blogs/" ++ category ++ str "/" ++ slug ++ str "/images/"
  let baseImageUrlSingular :=
    (if isDev then [] else gitHubBase) ++
    str "/blogs/" ++ category ++ str "/" ++ slug ++ str "/image/"
  let sharedImagesUrl :=
    (if isDev then [] else gitHubBase) ++ str "/blogs/images/"
  let videosUrl := replaceFirstLit (str "/images/") (str "/videos/") baseImageUrl
  let h1 := replAll (str "src=\"./images/") (str "src=\"" ++ baseImageUrl) html
  let h2 := replAll (str "src=\"images/") (str "src=\"" ++ baseImageUrl) h1
  let h3 := replAll (str "src=\"./image/") (str "src=\"" ++ baseImageUrlSingular) h2
  let h4 := replAll (str "src=\"image/") (str "src=\"" ++ baseImageUrlSingular) h3
  let h5 := replAll (str "src=\"../images/") (str "src=\"" ++ sharedImagesUrl) h4
  let h6 := replAll (str "src=\"./videos/") (str "src=\"" ++ videosUrl) h5
  replAll (str "src=\"videos/") (str "src=\"" ++ videosUrl) h6

/-- `rewriteImageUrlsForProduction` with the environment flag explicit. -/
def rewriteImageUrlsForProduction (isDev : Bool) (html : Str) : Str :=
  if isDev then html
  else replAll (str "src=\"/blogs/") (str "src=\"" ++ gitHubBase ++ str "/blogs/") html

/-! ## Claim support: the five labeled-equation syntax forms -/

/-- The five labeled math syntaxes of the resolver. -/
inductive EqForm
  | btick | dlabel | amsEq | dgeneric | colon
deriving DecidableEq, Repr

/-- A minimal labeled, enumerated equation block in each syntax. -/
def eqFormBlock : EqForm → Str → Str
  | EqForm.btick, l => str "```{math}\n:label: " ++ l ++ str "\nb\n```"
  | EqForm.dlabel, l => str "$$d$$ (" ++ l ++ str ")"
  | EqForm.amsEq, l => str "\\begin{equation}e\\label\x7b" ++ l ++ str "\x7d\\end{equation}"
  | EqForm.dgeneric, l => str "$$g\\label\x7b" ++ l ++ str "\x7d$$"
  | EqForm.colon, l => str ":::{math}\n:label: " ++ l ++ str "\nc\n:::"

/-- The position of each syntax in the fixed processing order of
`parseMystMath` (backtick directive, `$$..$$ (label)`, AMS environments,
generic `$$..$$`, colon-fenced directive). -/
def passIdx : EqForm → Nat
  | EqForm.btick => 0 | EqForm.dlabel => 1 | EqForm.amsEq => 2
  | EqForm.dgeneric => 3 | EqForm.colon => 4

/-- A two-equation document: a block of form `a` labeled `p`, then a block
of form `b` labeled `q`, in that document order. -/
def pairDoc (a b : EqForm) : Str :=
  eqFormBlock a (str "p") ++ str "\n" ++ eqFormBlock b (str "q")

/-- The registry state the resolver produces on `pairDoc a b`: numbers `1..2`
are assigned in processing order (pass index first, document order within a
pass), not in document order. -/
def pairState (a b : EqForm) : MathState :=
  if a = b ∨ passIdx a < passIdx b then ⟨2, [(str "q", 2), (str "p", 1)]⟩
  else ⟨2, [(str "p", 2), (str "q", 1)]⟩

/-- A definition of label `myeq` followed by both cross-reference forms. -/
def refDoc (f : EqForm) : Str :=
  eqFormBlock f (str "myeq") ++ str "\nSee \x7beq\x7d`myeq` and [](#myeq)."

/-- The equation HTML emitted for each form of `refDoc`'s defining block. -/
def refDocBlockHtml : EqForm → Str
  | EqForm.btick => eqBlockNum (str "myeq") (str "b") 1
  | EqForm.dlabel => eqBlockNum (str "myeq") (str "d") 1
  | EqForm.amsEq =>
    str "<div class=\"equation-block ams-env\" id=\"myeq\">\\[\\begin{equation}e\\label\x7bmyeq\x7d\\end{equation}\\]<span class=\"equation-number\">(1)</span></div>"
  | EqForm.dgeneric => eqBlockNum (str "myeq") (str "g") 1
  | EqForm.colon => eqBlockNum (str "myeq") (str "c") 1

/-! ## Claim support: nested directive fixtures -/

/-- The four fence spellings (colon and backtick families, lengths 3 and 4). -/
def fenceStrs : List Str := [str ":::", str "::::", str "```", str "````"]

/-- Directive names exercised by the nesting fixtures (two known generators
and one unknown name taking the generic fallback). -/
def nestNames : List Str := [str "note", str "dropdown", str "mydir"]

/-- Two-level nesting fixture: outer directive with title `T`, body text
before the inner block, an identical inner directive, and outer body text
after the inner block. -/
def nestDoc2 (f name : Str) : Str :=
  f ++ str "\x7b" ++ name ++ str "\x7d T\npre-line\n" ++
  f ++ str "\x7b" ++ name ++ str "\x7d\ninner-content\n" ++ f ++
  str "\npost-line\n" ++ f

/-- The compositional expected rendering of `nestDoc2`: the inner content
inside the inner wrapper, the inner wrapper inside the outer wrapper, and
the outer content after the inner block preserved. -/
def nestExpected2 (name : Str) : Str :=
  generateDirectiveHtml name (str "T") []
    (str "pre-line\n" ++ generateDirectiveHtml name [] [] (str "inner-content") ++
     str "\npost-line")

/-- Three-level nesting fixture. -/
def nestDoc3 (f name : Str) : Str :=
  f ++ str "\x7b" ++ name ++ str "\x7d T\npre-line\n" ++
  f ++ str "\x7b" ++ name ++ str "\x7d U\nmid-line\n" ++
  f ++ str "\x7b" ++ name ++ str "\x7d\ninner-content\n" ++ f ++
  str "\nmid-after\n" ++ f ++ str "\npost-line\n" ++ f

/-- The compositional expected rendering of `nestDoc3`. -/
def nestExpected3 (name : Str) : Str :=
  generateDirectiveHtml name (str "T") []
    (str "pre-line\n" ++
     generateDirectiveHtml name (str "U") []
       (str "mid-line\n" ++ generateDirectiveHtml name [] [] (str "inner-content") ++
        str "\nmid-after") ++
     str "\npost-line")

/-! ## Claim support: colon-math option configurations and AMS documents -/

/-- Colon-fenced math blocks: labeled, labeled and explicitly enumerated,
labeled but `:enumerated: false`, unlabeled enumerated, unlabeled. -/
def colonDocLab : Str := str ":::{math}\n:label: eql\nm\n:::"

def colonDocLabTrue : Str := str ":::{math}\n:label: eql\n:enumerated: true\nm\n:::"

def colonDocLabFalse : Str := str ":::{math}\n:label: eql\n:enumerated: false\nm\n:::"

def colonDocEnum : Str := str ":::{math}\n:enumerated: true\nm\n:::"

def colonDocBare : Str := str ":::{math}\nm\n:::"

/-- A labeled AMS block for environment `env`. -/
def amsLabDoc (env : Str) : Str :=
  str "\\begin\x7b" ++ env ++ str "\x7da\\label\x7bl1\x7d\\end\x7b" ++ env ++ str "\x7d"

/-- Expected conversion of `amsLabDoc`. -/
def amsLabExpected (env : Str) : Str :=
  str "<div class=\"equation-block ams-env\" id=\"l1\">\\[\\begin\x7b" ++ env ++
  str "\x7da\\label\x7bl1\x7d\\end\x7b" ++ env ++
  str "\x7d\\]<span class=\"equation-number\">(1)</span></div>"

/-- An unlabeled AMS block. -/
def amsPlainDoc (env : Str) : Str :=
  str "\\begin\x7b" ++ env ++ str "\x7da\\end\x7b" ++ env ++ str "\x7d"

/-- Expected conversion of `amsPlainDoc`: an unnumbered `ams-env` block. -/
def amsPlainExpected (env : Str) : Str :=
  str "<div class=\"equation-block ams-env\">\\[\\begin\x7b" ++ env ++
  str "\x7da\\end\x7b" ++ env ++ str "\x7d\\]</div>"

/-- The starred `split` environment, absent from `amsEnvs`. -/
def splitStarDoc : Str := str "\\begin\x7bsplit*\x7d\nx = y\n\\end\x7bsplit*\x7d"

/-- A document that is a single `{eq}` reference to label `l` with no
equation anywhere. -/
def eqRefOnlyDoc (l : Str) : Str := str "\x7beq\x7d`" ++ (l ++ str "`")

/-- `earlyMismatch pat x` holds when matching `pat` against `x` hits a
character mismatch before `x` runs out, so `pat` cannot be a prefix of
`x ++ y` for any `y`. -/
def earlyMismatch : Str → Str → Bool
  | [], _ => false
  | _ :: _, [] => false
  | p :: ps, c :: t => if p = c then earlyMismatch ps t else true

/-- A colon-fenced labeled equation followed by a reference to its label. -/
def c2CeDoc : Str := str ":::{math}\n:label: ceq\nc\n:::\nSee \x7beq\x7d`ceq`."

set_option maxRecDepth 200000

set_option maxHeartbeats 4000000

/-- C1 counterexample: in the document `pairDoc dlabel btick`, the
`$$..$$ (p)` equation occurs first (index 7 < 28), yet the registry assigns
it number 2 and the later backtick-directive equation number 1, so numbers
are not assigned in document order across syntaxes. -/
theorem c1_counterexample :
    (parseMystMathSt (pairDoc EqForm.dlabel EqForm.btick)).1 =
      ⟨2, [(str "p", 2), (str "q", 1)]⟩ ∧
    subPos (str "p") (pairDoc EqForm.dlabel EqForm.btick) = some 7 ∧
    subPos (str "q") (pairDoc EqForm.dlabel EqForm.btick) = some 28 := by
  decide

/-- Per-pair registry facts for the C1 family (one document each). -/

theorem pair_bb : (parseMystMathSt (pairDoc EqForm.btick EqForm.btick)).1 =
    pairState EqForm.btick EqForm.btick := by decide

theorem pair_bd : (parseMystMathSt (pairDoc EqForm.btick EqForm.dlabel)).1 =
    pairState EqForm.btick EqForm.dlabel := by decide

theorem pair_ba : (parseMystMathSt (pairDoc EqForm.btick EqForm.amsEq)).1 =
    pairState EqForm.btick EqForm.amsEq := by decide

theorem pair_bg : (parseMystMathSt (pairDoc EqForm.btick EqForm.dgeneric)).1 =
    pairState EqForm.btick EqForm.dgeneric := by decide

theorem pair_bc : (parseMystMathSt (pairDoc EqForm.btick EqForm.colon)).1 =
    pairState EqForm.btick EqForm.colon := by decide

theorem pair_db : (parseMystMathSt (pairDoc EqForm.dlabel EqForm.btick)).1 =
    pairState EqForm.dlabel EqForm.btick := by decide

theorem pair_dd : (parseMystMathSt (pairDoc EqForm.dlabel EqForm.dlabel)).1 =
    pairState EqForm.dlabel EqForm.dlabel := by decide

theorem pair_da : (parseMystMathSt (pairDoc EqForm.dlabel EqForm.amsEq)).1 =
    pairState EqForm.dlabel EqForm.amsEq := by decide

theorem pair_dg : (parseMystMathSt (pairDoc EqForm.dlabel EqForm.dgeneric)).1 =
    pairState EqForm.dlabel EqForm.dgeneric := by decide

theorem pair_dc : (parseMystMathSt (pairDoc EqForm.dlabel EqForm.colon)).1 =
    pairState EqForm.dlabel EqForm.colon := by decide

theorem pair_ab : (parseMystMathSt (pairDoc EqForm.amsEq EqForm.btick)).1 =
    pairState EqForm.amsEq EqForm.btick := by decide

theorem pair_ad : (parseMystMathSt (pairDoc EqForm.amsEq EqForm.dlabel)).1 =
    pairState EqForm.amsEq EqForm.dlabel := by decide

theorem pair_aa : (parseMystMathSt (pairDoc EqForm.amsEq EqForm.amsEq)).1 =
    pairState EqForm.amsEq EqForm.amsEq := by decide

theorem pair_ag : (parseMystMathSt (pairDoc EqForm.amsEq EqForm.dgeneric)).1 =
    pairState EqForm.amsEq EqForm.dgeneric := by decide

theorem pair_ac : (parseMystMathSt (pairDoc EqForm.amsEq EqForm.colon)).1 =
    pairState EqForm.amsEq EqForm.colon := by decide

theorem pair_gb : (parseMystMathSt (pairDoc EqForm.dgeneric EqForm.btick)).1 =
    pairState EqForm.dgeneric EqForm.btick := by decide

theorem pair_ga : (parseMystMathSt (pairDoc EqForm.dgeneric EqForm.amsEq)).1 =
    pairState EqForm.dgeneric EqForm.amsEq := by decide

theorem pair_gg : (parseMystMathSt (pairDoc EqForm.dgeneric EqForm.dgeneric)).1 =
    pairState EqForm.dgeneric EqForm.dgeneric := by decide

theorem pair_gc : (parseMystMathSt (pairDoc EqForm.dgeneric EqForm.colon)).1 =
    pairState EqForm.dgeneric EqForm.colon := by decide

theorem pair_cb : (parseMystMathSt (pairDoc EqForm.colon EqForm.btick)).1 =
    pairState EqForm.colon EqForm.btick := by decide

theorem pair_cd : (parseMystMathSt (pairDoc EqForm.colon EqForm.dlabel)).1 =
    pairState EqForm.colon EqForm.dlabel := by decide

theorem pair_ca : (parseMystMathSt (pairDoc EqForm.colon EqForm.amsEq)).1 =
    pairState EqForm.colon EqForm.amsEq := by decide

theorem pair_cg : (parseMystMathSt (pairDoc EqForm.colon EqForm.dgeneric)).1 =
    pairState EqForm.colon EqForm.dgeneric := by decide

theorem pair_cc : (parseMystMathSt (pairDoc EqForm.colon EqForm.colon)).1 =
    pairState EqForm.colon EqForm.colon := by decide

/-- C1 (amended): for any two of the five labeled-equation syntaxes, the
two-equation document receives numbers exactly 1..2, assigned in the fixed
processing order of the passes (document order only within a single
syntax); the combination of a generic-`$$` block followed by a
`$$..$$ (label)` block is excluded, because there the two blocks merge into
a single equation. -/
theorem c1_amended : ∀ a b : EqForm,
    ¬(a = EqForm.dgeneric ∧ b = EqForm.dlabel) →
    (parseMystMathSt (pairDoc a b)).1 = pairState a b := fun a b h =>
  match a, b, h with
  | EqForm.btick, EqForm.btick, _ => pair_bb
  | EqForm.btick, EqForm.dlabel, _ => pair_bd
  | EqForm.btick, EqForm.amsEq, _ => pair_ba
  | EqForm.btick, EqForm.dgeneric, _ => pair_bg
  | EqForm.btick, EqForm.colon, _ => pair_bc
  | EqForm.dlabel, EqForm.btick, _ => pair_db
  | EqForm.dlabel, EqForm.dlabel, _ => pair_dd
  | EqForm.dlabel, EqForm.amsEq, _ => pair_da
  | EqForm.dlabel, EqForm.dgeneric, _ => pair_dg
  | EqForm.dlabel, EqForm.colon, _ => pair_dc
  | EqForm.amsEq, EqForm.btick, _ => pair_ab
  | EqForm.amsEq, EqForm.dlabel, _ => pair_ad
  | EqForm.amsEq, EqForm.amsEq, _ => pair_aa
  | EqForm.amsEq, EqForm.dgeneric, _ => pair_ag
  | EqForm.amsEq, EqForm.colon, _ => pair_ac
  | EqForm.dgeneric, EqForm.btick, _ => pair_gb
  | EqForm.dgeneric, EqForm.dlabel, h2 => absurd (And.intro rfl rfl) h2
  | EqForm.dgeneric, EqForm.amsEq, _ => pair_ga
  | EqForm.dgeneric, EqForm.dgeneric, _ => pair_gg
  | EqForm.dgeneric, EqForm.colon, _ => pair_gc
  | EqForm.colon, EqForm.btick, _ => pair_cb
  | EqForm.colon, EqForm.dlabel, _ => pair_cd
  | EqForm.colon, EqForm.amsEq, _ => pair_ca
  | EqForm.colon, EqForm.dgeneric, _ => pair_cg
  | EqForm.colon, EqForm.colon, _ => pair_cc

/-- C1 witness: the amended theorem applied to a concrete pair. -/
theorem c1_amended_witness :
    (parseMystMathSt (pairDoc EqForm.btick EqForm.colon)).1 =
      pairState EqForm.btick EqForm.colon :=
  c1_amended EqForm.btick EqForm.colon (by decide)

/-- C2 counterexample: the label `ceq` is defined earlier in the document by
a labeled equation syntax (the colon-fenced directive, rendered as equation
(1) with id `ceq`), yet the `\x7beq\x7d` reference renders as the pending
anchor, not as the numbered anchor link: the reference passes run before the
colon-fenced math pass. -/
theorem c2_counterexample :
    parseMystMath c2CeDoc =
      eqBlockNum (str "ceq") (str "c") 1 ++ str "\nSee " ++
      pendingAnchor (str "ceq") ++ str "." ∧
    pendingAnchor (str "ceq") ≠ refAnchor (str "ceq") 1 := by
  decide

/-- Per-fixture nesting facts for C3 (one document each). -/

theorem nest2_c3_note : parseMystDirectives (nestDoc2 (str ":::") (str "note")) =
    nestExpected2 (str "note") := by decide

theorem nest3_c3_note : parseMystDirectives (nestDoc3 (str ":::") (str "note")) =
    nestExpected3 (str "note") := by decide

theorem nest2_c3_drop : parseMystDirectives (nestDoc2 (str ":::") (str "dropdown")) =
    nestExpected2 (str "dropdown") := by decide

theorem nest3_c3_drop : parseMystDirectives (nestDoc3 (str ":::") (str "dropdown")) =
    nestExpected3 (str "dropdown") := by decide

theorem nest2_c3_my : parseMystDirectives (nestDoc2 (str ":::") (str "mydir")) =
    nestExpected2 (str "mydir") := by decide

theorem nest3_c3_my : parseMystDirectives (nestDoc3 (str ":::") (str "mydir")) =
    nestExpected3 (str "mydir") := by decide

theorem nest2_c4_note : parseMystDirectives (nestDoc2 (str "::::") (str "note")) =
    nestExpected2 (str "note") := by decide

theorem nest3_c4_note : parseMystDirectives (nestDoc3 (str "::::") (str "note")) =
    nestExpected3 (str "note") := by decide

theorem nest2_c4_drop : parseMystDirectives (nestDoc2 (str "::::") (str "dropdown")) =
    nestExpected2 (str "dropdown") := by decide

theorem nest3_c4_drop : parseMystDirectives (nestDoc3 (str "::::") (str "dropdown")) =
    nestExpected3 (str "dropdown") := by decide

theorem nest2_c4_my : parseMystDirectives (nestDoc2 (str "::::") (str "mydir")) =
    nestExpected2 (str "mydir") := by decide

theorem nest3_c4_my : parseMystDirectives (nestDoc3 (str "::::") (str "mydir")) =
    nestExpected3 (str "mydir") := by decide

theorem nest2_b3_note : parseMystDirectives (nestDoc2 (str "```") (str "note")) =
    nestExpected2 (str "note") := by decide

theorem nest3_b3_note : parseMystDirectives (nestDoc3 (str "```") (str "note")) =
    nestExpected3 (str "note") := by decide

theorem nest2_b3_drop : parseMystDirectives (nestDoc2 (str "```") (str "dropdown")) =
    nestExpected2 (str "dropdown") := by decide

theorem nest3_b3_drop : parseMystDirectives (nestDoc3 (str "```") (str "dropdown")) =
    nestExpected3 (str "dropdown") := by decide

theorem nest2_b3_my : parseMystDirectives (nestDoc2 (str "```") (str "mydir")) =
    nestExpected2 (str "mydir") := by decide

theorem nest3_b3_my : parseMystDirectives (nestDoc3 (str "```") (str "mydir")) =
    nestExpected3 (str "mydir") := by decide

theorem nest2_b4_note : parseMystDirectives (nestDoc2 (str "````") (str "note")) =
    nestExpected2 (str "note") := by decide

theorem nest3_b4_note : parseMystDirectives (nestDoc3 (str "````") (str "note")) =
    nestExpected3 (str "note") := by decide

theorem nest2_b4_drop : parseMystDirectives (nestDoc2 (str "````") (str "dropdown")) =
    nestExpected2 (str "dropdown") := by decide

theorem nest3_b4_drop : parseMystDirectives (nestDoc3 (str "````") (str "dropdown")) =
    nestExpected3 (str "dropdown") := by decide

theorem nest2_b4_my : parseMystDirectives (nestDoc2 (str "````") (str "mydir")) =
    nestExpected2 (str "mydir") := by decide

theorem nest3_b4_my : parseMystDirectives (nestDoc3 (str "````") (str "mydir")) =
    nestExpected3 (str "mydir") := by decide

/-- C3: for every fence family and length and for each fixture directive
name, a directive block containing a same-family, same-name nested directive
at two and at three nesting levels closes at the matching fence: the result
is exactly the compositional rendering in which the inner content sits in
the inner wrapper, the inner wrapper in the outer wrapper, and the outer
content after the inner block is preserved. -/
theorem c3_nesting : ∀ f ∈ fenceStrs, ∀ n ∈ nestNames,
    parseMystDirectives (nestDoc2 f n) = nestExpected2 n ∧
    parseMystDirectives (nestDoc3 f n) = nestExpected3 n := by
  intro f hf n hn
  simp only [fenceStrs, List.mem_cons, List.mem_singleton, List.not_mem_nil,
    or_false] at hf
  simp only [nestNames, List.mem_cons, List.mem_singleton, List.not_mem_nil,
    or_false] at hn
  rcases hf with rfl | rfl | rfl | rfl <;> rcases hn with rfl | rfl | rfl
  exacts [⟨nest2_c3_note, nest3_c3_note⟩,
    ⟨nest2_c3_drop, nest3_c3_drop⟩,
    ⟨nest2_c3_my, nest3_c3_my⟩,
    ⟨nest2_c4_note, nest3_c4_note⟩,
    ⟨nest2_c4_drop, nest3_c4_drop⟩,
    ⟨nest2_c4_my, nest3_c4_my⟩,
    ⟨nest2_b3_note, nest3_b3_note⟩,
    ⟨nest2_b3_drop, nest3_b3_drop⟩,
    ⟨nest2_b3_my, nest3_b3_my⟩,
    ⟨nest2_b4_note, nest3_b4_note⟩,
    ⟨nest2_b4_drop, nest3_b4_drop⟩,
    ⟨nest2_b4_my, nest3_b4_my⟩]

/-- C3 witness: the two- and three-level fixtures for a colon-fenced note. -/
theorem c3_nesting_witness :
    parseMystDirectives (nestDoc2 (str ":::") (str "note")) =
      nestExpected2 (str "note") ∧
    parseMystDirectives (nestDoc3 (str ":::") (str "note")) =
      nestExpected3 (str "note") :=
  c3_nesting (str ":::") (by decide) (str "note") (by decide)

/-- Per-spelling path-rewriting facts for C5 (one input each). -/

theorem path_l1 : rewriteSrcPaths true (str "ai") (str "post1")
    (str "src=\"./images/a.png\"") = str "src=\"/blogs/ai/post1/images/a.png\"" := by decide

theorem path_l2 : rewriteSrcPaths true (str "ai") (str "post1")
    (str "src=\"images/a.png\"") = str "src=\"/blogs/ai/post1/images/a.png\"" := by decide

theorem path_l3 : rewriteSrcPaths true (str "ai") (str "post1")
    (str "src=\"./image/a.png\"") = str "src=\"/blogs/ai/post1/image/a.png\"" := by decide

theorem path_l4 : rewriteSrcPaths true (str "ai") (str "post1")
    (str "src=\"image/a.png\"") = str "src=\"/blogs/ai/post1/image/a.png\"" := by decide

theorem path_l5 : rewriteSrcPaths true (str "ai") (str "post1")
    (str "src=\"../images/a.png\"") = str "src=\"/blogs/images/a.png\"" := by decide

theorem path_p1 : rewriteSrcPaths false (str "ai") (str "post1")
    (str "src=\"./images/a.png\"") =
    str "src=\"" ++ gitHubBase ++ str "/blogs/ai/post1/images/a.png\"" := by decide

theorem path_p2 : rewriteSrcPaths false (str "ai") (str "post1")
    (str "src=\"images/a.png\"") =
    str "src=\"" ++ gitHubBase ++ str "/blogs/ai/post1/images/a.png\"" := by decide

theorem path_p3 : rewriteSrcPaths false (str "ai") (str "post1")
    (str "src=\"./image/a.png\"") =
    str "src=\"" ++ gitHubBase ++ str "/blogs/ai/post1/image/a.png\"" := by decide

theorem path_p4 : rewriteSrcPaths false (str "ai") (str "post1")
    (str "src=\"image/a.png\"") =
    str "src=\"" ++ gitHubBase ++ str "/blogs/ai/post1/image/a.png\"" := by decide

theorem path_p5 : rewriteSrcPaths false (str "ai") (str "post1")
    (str "src=\"../images/a.png\"") =
    str "src=\"" ++ gitHubBase ++ str "/blogs/images/a.png\"" := by decide

/-- C5: path rewriting for category `ai`, slug `post1`: each of the four
relative image spellings and the shared-pool `../images/` spelling is
rewritten to the same-origin base in local mode and to the external
raw-content base in published mode. -/
theorem c5_path_rewriting :
    (rewriteSrcPaths true (str "ai") (str "post1") (str "src=\"./images/a.png\"") =
      str "src=\"/blogs/ai/post1/images/a.png\"") ∧
    (rewriteSrcPaths true (str "ai") (str "post1") (str "src=\"images/a.png\"") =
      str "src=\"/blogs/ai/post1/images/a.png\"") ∧
    (rewriteSrcPaths true (str "ai") (str "post1") (str "src=\"./image/a.png\"") =
      str "src=\"/blogs/ai/post1/image/a.png\"") ∧
    (rewriteSrcPaths true (str "ai") (str "post1") (str "src=\"image/a.png\"") =
      str "src=\"/blogs/ai/post1/image/a.png\"") ∧
    (rewriteSrcPaths true (str "ai") (str "post1") (str "src=\"../images/a.png\"") =
      str "src=\"/blogs/images/a.png\"") ∧
    (rewriteSrcPaths false (str "ai") (str "post1") (str "src=\"./images/a.png\"") =
      str "src=\"" ++ gitHubBase ++ str "/blogs/ai/post1/images/a.png\"") ∧
    (rewriteSrcPaths false (str "ai") (str "post1") (str "src=\"images/a.png\"") =
      str "src=\"" ++ gitHubBase ++ str "/blogs/ai/post1/images/a.png\"") ∧
    (rewriteSrcPaths false (str "ai") (str "post1") (str "src=\"./image/a.png\"") =
      str "src=\"" ++ gitHubBase ++ str "/blogs/ai/post1/image/a.png\"") ∧
    (rewriteSrcPaths false (str "ai") (str "post1") (str "src=\"image/a.png\"") =
      str "src=\"" ++ gitHubBase ++ str "/blogs/ai/post1/image/a.png\"") ∧
    (rewriteSrcPaths false (str "ai") (str "post1") (str "src=\"../images/a.png\"") =
      str "src=\"" ++ gitHubBase ++ str "/blogs/images/a.png\"") :=
  ⟨path_l1, path_l2, path_l3, path_l4, path_l5,
   path_p1, path_p2, path_p3, path_p4, path_p5⟩

/-- Per-configuration colon-math facts for C7 (one document each). -/
theorem colon_lab_num : parseMystMathSt colonDocLab =
    (⟨1, [(str "eql", 1)]⟩, eqBlockNum (str "eql") (str "m") 1) := by decide

theorem colon_labtrue_num : parseMystMathSt colonDocLabTrue =
    (⟨1, [(str "eql", 1)]⟩, eqBlockNum (str "eql") (str "m") 1) := by decide

theorem colon_labfalse_plain : parseMystMathSt colonDocLabFalse =
    (⟨0, []⟩, eqBlockPlain (str "m")) := by decide

theorem colon_enum_plain : parseMystMathSt colonDocEnum =
    (⟨0, []⟩, eqBlockPlain (str "m")) := by decide

theorem colon_bare_plain : parseMystMathSt colonDocBare =
    (⟨0, []⟩, eqBlockPlain (str "m")) := by decide

/-- C7: a colon-fenced math directive is numbered and registered exactly
when it carries a nonempty `:label:` option and is enumerated: a labeled
block (with or without an explicit `:enumerated: true`) becomes equation 1
with a registry entry; `:enumerated: false` suppresses numbering and the
registry entry even with a label; unlabeled blocks are never numbered and
never enter the registry. -/
theorem c7_colon_math_enumeration :
    parseMystMathSt colonDocLab =
      (⟨1, [(str "eql", 1)]⟩, eqBlockNum (str "eql") (str "m") 1) ∧
    parseMystMathSt colonDocLabTrue =
      (⟨1, [(str "eql", 1)]⟩, eqBlockNum (str "eql") (str "m") 1) ∧
    parseMystMathSt colonDocLabFalse = (⟨0, []⟩, eqBlockPlain (str "m")) ∧
    parseMystMathSt colonDocEnum = (⟨0, []⟩, eqBlockPlain (str "m")) ∧
    parseMystMathSt colonDocBare = (⟨0, []⟩, eqBlockPlain (str "m")) :=
  ⟨colon_lab_num, colon_labtrue_num, colon_labfalse_plain,
   colon_enum_plain, colon_bare_plain⟩

/-- C8 counterexample: the starred `split*` environment is not in the
resolver's environment list, so a `\begin\x7bsplit*\x7d..\end\x7bsplit*\x7d`
block passes through unconverted: no equation-block element is produced. -/
theorem c8_counterexample :
    parseMystMath splitStarDoc = splitStarDoc ∧
    containsSub (str "equation-block") splitStarDoc = false := by
  decide

/-- Per-environment AMS conversion facts for C8 (one document each). -/

theorem ams_lab_eq : parseMystMathSt (amsLabDoc (str "equation")) =
    (⟨1, [(str "l1", 1)]⟩, amsLabExpected (str "equation")) := by decide

theorem ams_lab_eqs : parseMystMathSt (amsLabDoc (str "equation*")) =
    (⟨1, [(str "l1", 1)]⟩, amsLabExpected (str "equation*")) := by decide

theorem ams_lab_al : parseMystMathSt (amsLabDoc (str "align")) =
    (⟨1, [(str "l1", 1)]⟩, amsLabExpected (str "align")) := by decide

theorem ams_lab_als : parseMystMathSt (amsLabDoc (str "align*")) =
    (⟨1, [(str "l1", 1)]⟩, amsLabExpected (str "align*")) := by decide

theorem ams_lab_ga : parseMystMathSt (amsLabDoc (str "gather")) =
    (⟨1, [(str "l1", 1)]⟩, amsLabExpected (str "gather")) := by decide

theorem ams_lab_gas : parseMystMathSt (amsLabDoc (str "gather*")) =
    (⟨1, [(str "l1", 1)]⟩, amsLabExpected (str "gather*")) := by decide

theorem ams_lab_mu : parseMystMathSt (amsLabDoc (str "multline")) =
    (⟨1, [(str "l1", 1)]⟩, amsLabExpected (str "multline")) := by decide

theorem ams_lab_mus : parseMystMathSt (amsLabDoc (str "multline*")) =
    (⟨1, [(str "l1", 1)]⟩, amsLabExpected (str "multline*")) := by decide

theorem ams_lab_at : parseMystMathSt (amsLabDoc (str "alignat")) =
    (⟨1, [(str "l1", 1)]⟩, amsLabExpected (str "alignat")) := by decide

theorem ams_lab_ats : parseMystMathSt (amsLabDoc (str "alignat*")) =
    (⟨1, [(str "l1", 1)]⟩, amsLabExpected (str "alignat*")) := by decide

theorem ams_lab_sp : parseMystMathSt (amsLabDoc (str "split")) =
    (⟨1, [(str "l1", 1)]⟩, amsLabExpected (str "split")) := by decide

theorem ams_plain_gs : parseMystMath (amsPlainDoc (str "gather*")) =
    amsPlainExpected (str "gather*") := by decide

/-- C8 (amended): every environment in the resolver's list (`equation`,
`align`, `gather`, `multline`, `alignat` with their starred forms, and
unstarred `split` - `split*` is absent) is converted to an equation-block
element, with the label extracted from an internal `\label\x7b..\x7d`
command when present and no number otherwise. -/
theorem c8_amended :
    (∀ env ∈ amsEnvs,
      parseMystMathSt (amsLabDoc env) =
        (⟨1, [(str "l1", 1)]⟩, amsLabExpected env)) ∧
    parseMystMath (amsPlainDoc (str "gather*")) =
      amsPlainExpected (str "gather*") := by
  refine ⟨?_, ams_plain_gs⟩
  intro env henv
  simp only [amsEnvs, List.mem_cons, List.mem_singleton, List.not_mem_nil,
    or_false] at henv
  rcases henv with rfl | rfl | rfl | rfl | rfl | rfl | rfl | rfl | rfl | rfl | rfl
  exacts [ams_lab_eq, ams_lab_eqs, ams_lab_al, ams_lab_als, ams_lab_ga, ams_lab_gas, ams_lab_mu, ams_lab_mus, ams_lab_at, ams_lab_ats, ams_lab_sp]

/-- C8 witness: the amended theorem applied to the `equation` environment. -/
theorem c8_amended_witness :
    parseMystMathSt (amsLabDoc (str "equation")) =
      (⟨1, [(str "l1", 1)]⟩, amsLabExpected (str "equation")) :=
  c8_amended.1 (str "equation") (by decide)

/-- C9 counterexample: a `\x7bkbd\x7d` role whose text contains `+` is
rendered as a single `<kbd>` element containing the whole text (the simple
kbd pass consumes it before the splitting pass runs), not as one `<kbd>`
per key. -/
theorem c9_counterexample :
    parseMystRoles (str "\x7bkbd\x7d`Ctrl+C`") = str "<kbd>Ctrl+C</kbd>" ∧
    str "<kbd>Ctrl+C</kbd>" ≠ kbdSplitHtml (str "Ctrl+C") := by
  decide

/-! ## Scanner lemmas -/

/-- An empty input is returned unchanged by any pass. -/
theorem scanReplace_nil {σ : Type} (step : σ → Str → Option (σ × Str × Str))
    (st : σ) : ∀ fuel, scanReplace step fuel st [] = (st, [])
  | 0 => rfl
  | _ + 1 => rfl

/-- A pass whose matcher fails at every position is the identity. -/
theorem scanReplace_id {σ : Type} (step : σ → Str → Option (σ × Str × Str))
    (st : σ) (s : Str) (h : ∀ u, u <:+ s → u ≠ [] → step st u = none) :
    ∀ fuel, scanReplace step fuel st s = (st, s) := by
  induction s with
  | nil => intro fuel; exact scanReplace_nil step st fuel
  | cons c t ih =>
    intro fuel
    cases fuel with
    | zero => rfl
    | succ f =>
      have hc : step st (c :: t) = none :=
        h (c :: t) (List.suffix_refl _) (by simp)
      simp only [scanReplace, hc]
      rw [ih (fun u hu hne => h u (hu.trans (List.suffix_cons c t)) hne) f]

/-- A matcher that only fires on a trigger character makes a pass the
identity on text not containing that character. -/
theorem scanReplace_id_of_trigger {σ : Type}
    (step : σ → Str → Option (σ × Str × Str)) (st : σ) (trig : Char) (s : Str)
    (hstep : ∀ c t, c ≠ trig → step st (c :: t) = none)
    (hs : ∀ c ∈ s, c ≠ trig) :
    ∀ fuel, scanReplace step fuel st s = (st, s) := by
  refine scanReplace_id step st s ?_
  intro u hu hne
  cases u with
  | nil => exact absurd rfl hne
  | cons c t => exact hstep c t (hs c (hu.subset (List.mem_cons_self c t)))

/-- `runPass` version of the trigger identity. -/
theorem runPass_id_of_trigger (step : MathState → Str → Option (MathState × Str × Str))
    (x : MathState × Str) (trig : Char)
    (hstep : ∀ c t, c ≠ trig → step x.1 (c :: t) = none)
    (hs : ∀ c ∈ x.2, c ≠ trig) : runPass step x = x := by
  unfold runPass
  rw [scanReplace_id_of_trigger step x.1 trig x.2 hstep hs]

/-- A match at the head of the input whose remainder has no further match. -/
theorem scanReplace_head_match {σ : Type}
    (step : σ → Str → Option (σ × Str × Str)) (st st1 : σ)
    (c : Char) (t repl rest : Str) (fuel : Nat)
    (hm : step st (c :: t) = some (st1, repl, rest))
    (hrest : ∀ u, u <:+ rest → u ≠ [] → step st1 u = none) :
    scanReplace step (fuel + 1) st (c :: t) = (st1, repl ++ rest) := by
  simp only [scanReplace, hm]
  rw [scanReplace_id step st1 rest hrest fuel]

/-- Head-character failure of a prefix test. -/
theorem dropPre?_head_ne {p c : Char} {ps t : Str} (h : p ≠ c) :
    dropPre? (p :: ps) (c :: t) = none := by
  simp [dropPre?, h]

/-- A prefix drops off the front of an append. -/
theorem dropPre?_append_self (p r : Str) : dropPre? p (p ++ r) = some r := by
  induction p with
  | nil => rfl
  | cons c ps ih => simp [dropPre?, ih]

/-- `takeWhile` over a run that satisfies the predicate, stopped by a
failing character. -/
theorem takeWhile_append_stop {p : Char → Bool} {l : Str} {c : Char} {r : Str}
    (hl : ∀ x ∈ l, p x = true) (hc : p c = false) :
    (l ++ c :: r).takeWhile p = l := by
  induction l with
  | nil => simp [List.takeWhile_cons, hc]
  | cons a l ih =>
    have ha : p a = true := hl a (List.mem_cons_self a l)
    simp only [List.cons_append, List.takeWhile_cons, ha]
    simp [ih (fun x hx => hl x (List.mem_cons_of_mem a hx))]

/-- The matching `dropWhile` fact. -/
theorem dropWhile_append_stop {p : Char → Bool} {l : Str} {c : Char} {r : Str}
    (hl : ∀ x ∈ l, p x = true) (hc : p c = false) :
    (l ++ c :: r).dropWhile p = c :: r := by
  induction l with
  | nil => simp [List.dropWhile_cons, hc]
  | cons a l ih =>
    have ha : p a = true := hl a (List.mem_cons_self a l)
    simp only [List.cons_append, List.dropWhile_cons, ha]
    exact ih (fun x hx => hl x (List.mem_cons_of_mem a hx))

/-- Alphanumeric characters differ from every non-alphanumeric character. -/
theorem alphaNum_ne (x : Char) {c : Char} (h : isAlphaNum c = true)
    (hx : isAlphaNum x = false) : c ≠ x := by
  intro e
  rw [e, hx] at h
  cases h

/-- Trimming leaves a whitespace-free string unchanged. -/
theorem trimStr_eq_self {l : Str} (h : ∀ c ∈ l, isWsChar c = false) :
    trimStr l = l := by
  have hleft : trimLeft l = l := by
    unfold trimLeft
    cases l with
    | nil => rfl
    | cons c t =>
      rw [List.dropWhile_cons_of_neg]
      simp [h c (List.mem_cons_self c t)]
  have hrev : ∀ x ∈ l.reverse, isWsChar x = false := by
    intro x hx
    exact h x (List.mem_reverse.mp hx)
  unfold trimStr trimRight
  rw [hleft]
  cases hrl : l.reverse with
  | nil =>
    have : l = [] := by
      have := congrArg List.reverse hrl
      simpa using this
    simp [this]
  | cons c t =>
    rw [List.dropWhile_cons_of_neg]
    · rw [← hrl]
      simp
    · simp [hrev c (by rw [hrl]; exact List.mem_cons_self c t)]

/-! ## Per-pass trigger lemmas: each matcher fails unless the input starts
with its trigger character -/

theorem mathDirStep_none (st : MathState) (c : Char) (t : Str) (h : c ≠ '`') :
    mathDirStep st (c :: t) = none := by
  unfold mathDirStep
  rw [show str "```{math}" = '`' :: str "``{math}" from rfl,
    dropPre?_head_ne (Ne.symm h)]

theorem dollarLabelStep_none (st : MathState) (c : Char) (t : Str) (h : c ≠ '$') :
    dollarLabelStep st (c :: t) = none := by
  unfold dollarLabelStep
  rw [show str "$$" = '$' :: str "$" from rfl, dropPre?_head_ne (Ne.symm h)]

theorem amsStep_none (env : Str) (st : MathState) (c : Char) (t : Str)
    (h : c ≠ '\\') : amsStep env st (c :: t) = none := by
  unfold amsStep
  rw [show str "\\begin\x7b" ++ env ++ str "\x7d" =
    '\\' :: (str "begin\x7b" ++ env ++ str "\x7d") from rfl,
    dropPre?_head_ne (Ne.symm h)]

theorem dollarStep_none (st : MathState) (c : Char) (t : Str) (h : c ≠ '$') :
    dollarStep st (c :: t) = none := by
  unfold dollarStep
  rw [show str "$$" = '$' :: str "$" from rfl, dropPre?_head_ne (Ne.symm h)]

theorem eqRefStep_none (st : MathState) (c : Char) (t : Str) (h : c ≠ '\x7b') :
    eqRefStep st (c :: t) = none := by
  unfold eqRefStep
  rw [show str "\x7beq\x7d`" = '\x7b' :: str "eq\x7d`" from rfl,
    dropPre?_head_ne (Ne.symm h)]

theorem linkRefStep_none (st : MathState) (c : Char) (t : Str) (h : c ≠ '[') :
    linkRefStep st (c :: t) = none := by
  unfold linkRefStep
  rw [show str "[](#" = '[' :: str "](#" from rfl, dropPre?_head_ne (Ne.symm h)]

theorem mathRoleStep_none (st : MathState) (c : Char) (t : Str) (h : c ≠ '\x7b') :
    mathRoleStep st (c :: t) = none := by
  unfold mathRoleStep
  rw [show str "\x7bmath" = '\x7b' :: str "math" from rfl,
    dropPre?_head_ne (Ne.symm h)]

theorem inlineMathStep_none (st : MathState) (c : Char) (t : Str) (h : c ≠ '$') :
    inlineMathStep st (c :: t) = none := by
  unfold inlineMathStep
  rw [show str "$" = '$' :: ([] : Str) from rfl, dropPre?_head_ne (Ne.symm h)]

theorem colonMathStep_none (st : MathState) (c : Char) (t : Str) (h : c ≠ ':') :
    colonMathStep st (c :: t) = none := by
  unfold colonMathStep
  rw [show str ":::\x7bmath\x7d" = ':' :: str "::\x7bmath\x7d" from rfl,
    dropPre?_head_ne (Ne.symm h)]

theorem figureStep_none (tg : List (Str × Str × Str)) (c : Char) (t : Str)
    (h : c ≠ '`') : figureStep tg () (c :: t) = none := by
  unfold figureStep
  rw [show str "```\x7bfigure\x7d" = '`' :: str "``\x7bfigure\x7d" from rfl,
    dropPre?_head_ne (Ne.symm h)]

theorem buttonStep_none (c : Char) (t : Str) (h : c ≠ '\x7b') :
    buttonStep () (c :: t) = none := by
  unfold buttonStep
  rw [show str "\x7bbutton\x7d`" = '\x7b' :: str "button\x7d`" from rfl,
    dropPre?_head_ne (Ne.symm h)]

theorem termStep_none (c : Char) (t : Str) (h : c ≠ '\x7b') :
    termStep () (c :: t) = none := by
  unfold termStep
  rw [show str "\x7bterm\x7d`" = '\x7b' :: str "term\x7d`" from rfl,
    dropPre?_head_ne (Ne.symm h)]

theorem simpleRoleStep_none (ps wl wr : Str) (c : Char) (t : Str)
    (h : c ≠ '\x7b') : simpleRoleStep ('\x7b' :: ps) wl wr () (c :: t) = none := by
  unfold simpleRoleStep
  rw [dropPre?_head_ne (Ne.symm h)]

theorem abbrStep_none (c : Char) (t : Str) (h : c ≠ '\x7b') :
    abbrStep () (c :: t) = none := by
  unfold abbrStep
  rw [show str "\x7babbr\x7d`" = '\x7b' :: str "abbr\x7d`" from rfl,
    dropPre?_head_ne (Ne.symm h)]

theorem abbr2Step_none (c : Char) (t : Str) (h : c ≠ '\x7b') :
    abbr2Step () (c :: t) = none := by
  unfold abbr2Step
  rw [show str "\x7babbr\x7d`" = '\x7b' :: str "abbr\x7d`" from rfl,
    dropPre?_head_ne (Ne.symm h)]

theorem altRoleStep_none (ps qs : Str) (mk : Str → Str) (c : Char) (t : Str)
    (h : c ≠ '\x7b') :
    altRoleStep ('\x7b' :: ps) ('\x7b' :: qs) mk () (c :: t) = none := by
  unfold altRoleStep
  rw [dropPre?_head_ne (Ne.symm h), dropPre?_head_ne (Ne.symm h)]

/-- The AMS environment fold is the identity on backslash-free text. -/
theorem amsFold_id (x : MathState × Str) (hs : ∀ c ∈ x.2, c ≠ '\\') :
    amsEnvs.foldl (fun acc env => runPass (amsStep env) acc) x = x := by
  have key : ∀ l : List Str, l.foldl (fun acc env => runPass (amsStep env) acc) x = x := by
    intro l
    induction l with
    | nil => rfl
    | cons e es ih =>
      rw [List.foldl_cons,
        runPass_id_of_trigger (amsStep e) x '\\' (fun c t hc => amsStep_none e x.1 c t hc) hs,
        ih]
  exact key amsEnvs

/-! ## Suffix classification helpers -/

/-- A suffix of an append is a suffix of the right part, or a nonempty
suffix of the left part followed by the whole right part. -/
theorem suffix_append_cases {α : Type} {u x y : List α} (h : u <:+ x ++ y) :
    u <:+ y ∨ ∃ x1, x1 <:+ x ∧ x1 ≠ [] ∧ u = x1 ++ y := by
  induction x with
  | nil => left; simpa using h
  | cons a x ih =>
    rcases List.suffix_cons_iff.mp h with rfl | h2
    · right
      exact ⟨a :: x, List.suffix_refl _, by simp, rfl⟩
    · rcases ih h2 with h3 | ⟨x1, hx1, hne, rfl⟩
      · exact Or.inl h3
      · exact Or.inr ⟨x1, hx1.trans (List.suffix_cons a x), hne, rfl⟩

/-- Suffixes of a singleton. -/
theorem suffix_singleton {α : Type} {u : List α} {a : α} (h : u <:+ [a]) :
    u = [a] ∨ u = [] := by
  rcases List.suffix_cons_iff.mp h with rfl | h2
  · exact Or.inl rfl
  · exact Or.inr (List.suffix_nil.mp h2)

/-- Matcher failure on all nonempty suffixes of an append, given failure on
non-trigger heads, a trigger-free left part, and failure on the right part's
suffixes. -/
theorem step_none_on_concat {σ : Type}
    (step : σ → Str → Option (σ × Str × Str)) (st : σ) (x y : Str) (trig : Char)
    (hstep : ∀ c t, c ≠ trig → step st (c :: t) = none)
    (hx : ∀ c ∈ x, c ≠ trig)
    (hy : ∀ u, u <:+ y → u ≠ [] → step st u = none) :
    ∀ u, u <:+ x ++ y → u ≠ [] → step st u = none := by
  intro u hu hne
  rcases suffix_append_cases hu with h1 | ⟨x1, hx1, hxne, rfl⟩
  · exact hy u h1 hne
  · cases x1 with
    | nil => exact absurd rfl hxne
    | cons c t =>
      rw [List.cons_append]
      exact hstep c (t ++ y) (hx c (hx1.subset (List.mem_cons_self c t)))

/-! ## C2: the pending-reference behaviour for an arbitrary undefined label -/

/-- Pass 1 never fires anywhere in `eqRefOnlyDoc`. -/
theorem mathDir_none_on_refDoc (l : Str) (hl : ∀ c ∈ l, isAlphaNum c = true) :
    ∀ u, u <:+ eqRefOnlyDoc l → u ≠ [] → mathDirStep ⟨0, []⟩ u = none := by
  have e : eqRefOnlyDoc l = str "\x7beq\x7d" ++ ('`' :: (l ++ ['`'])) := rfl
  rw [e]
  refine step_none_on_concat _ _ _ _ '`'
    (fun c t hc => mathDirStep_none _ c t hc) (by decide) ?_
  intro u hu hne
  rcases List.suffix_cons_iff.mp hu with rfl | h2
  · cases l with
    | nil =>
      exact rfl
    | cons c l2 =>
      have hcb : ('`' : Char) ≠ c :=
        (alphaNum_ne '`' (hl c (List.mem_cons_self c l2)) (by decide)).symm
      unfold mathDirStep
      rw [show str "```\x7bmath\x7d" = '`' :: '`' :: str "`\x7bmath\x7d" from rfl]
      rw [show ('`' :: ((c :: l2) ++ ['`']) : Str) = '`' :: c :: (l2 ++ ['`']) from rfl]
      rw [dropPre?, if_pos rfl, dropPre?_head_ne hcb]
  · refine step_none_on_concat _ _ _ _ '`'
      (fun c t hc => mathDirStep_none _ c t hc)
      (fun c hc => alphaNum_ne '`' (hl c hc) (by decide)) ?_ u h2 hne
    intro v hv hvne
    rcases suffix_singleton hv with rfl | rfl
    · rfl
    · exact absurd rfl hvne

/-- The reference matcher resolves `{eq}`l`` on the empty registry to the
pending anchor. -/
theorem eqRefStep_match_pending (c0 : Char) (l2 : Str)
    (hl : ∀ c ∈ (c0 :: l2 : Str), isAlphaNum c = true) :
    eqRefStep ⟨0, []⟩ (eqRefOnlyDoc (c0 :: l2)) =
      some (⟨0, []⟩, pendingAnchor (c0 :: l2), []) := by
  have hp : ∀ x ∈ (c0 :: l2 : Str), (decide (x ≠ '`')) = true := by
    intro x hx
    simp [alphaNum_ne '`' (hl x hx) (by decide)]
  have h2 : List.takeWhile (fun c => decide (c ≠ '`')) (c0 :: (l2 ++ '`' :: [])) =
      c0 :: l2 := by
    simpa using takeWhile_append_stop hp (by decide)
  have h3 : List.dropWhile (fun c => decide (c ≠ '`')) (c0 :: (l2 ++ '`' :: [])) =
      '`' :: [] := by
    simpa using dropWhile_append_stop hp (by decide)
  unfold eqRefStep
  rw [show eqRefOnlyDoc (c0 :: l2) = str "\x7beq\x7d`" ++ ((c0 :: l2) ++ '`' :: []) from rfl]
  rw [dropPre?_append_self]
  simp only [h2, h3, List.cons_append]
  rfl

/-- A pass whose matcher fails on every nonempty suffix of the current text
leaves the state and text unchanged. -/
theorem runPass_id (step : MathState → Str → Option (MathState × Str × Str))
    (x : MathState × Str)
    (h : ∀ u, u <:+ x.2 → u ≠ [] → step x.1 u = none) : runPass step x = x := by
  unfold runPass
  rw [scanReplace_id step x.1 x.2 h]

/-- The reference pass on the whole-document reference with empty registry. -/
theorem runPass_eqRef_pending (c0 : Char) (l2 : Str)
    (hl : ∀ c ∈ (c0 :: l2 : Str), isAlphaNum c = true) :
    runPass eqRefStep (⟨0, []⟩, eqRefOnlyDoc (c0 :: l2)) =
      (⟨0, []⟩, pendingAnchor (c0 :: l2)) := by
  unfold runPass
  have hrest : ∀ u, u <:+ ([] : Str) → u ≠ [] → eqRefStep ⟨0, []⟩ u = none := by
    intro u hu hne
    exact absurd (List.suffix_nil.mp hu) hne
  have key := scanReplace_head_match eqRefStep ⟨0, []⟩ ⟨0, []⟩ '\x7b'
      (str "eq\x7d`" ++ ((c0 :: l2) ++ str "`")) (pendingAnchor (c0 :: l2)) []
      (eqRefOnlyDoc (c0 :: l2)).length (eqRefStep_match_pending c0 l2 hl) hrest
  rw [List.append_nil] at key
  exact key

/-- Concrete characters of `eqRefOnlyDoc` beyond the label. -/
theorem eqRefOnlyDoc_chars (c0 : Char) (l2 : Str)
    (hl : ∀ c ∈ (c0 :: l2 : Str), isAlphaNum c = true) (trig : Char)
    (ht : ∀ c ∈ str "\x7beq\x7d`", c ≠ trig) (ha : isAlphaNum trig = false) :
    ∀ c ∈ eqRefOnlyDoc (c0 :: l2), c ≠ trig := by
  intro c hc
  unfold eqRefOnlyDoc at hc
  rcases List.mem_append.mp hc with h | h
  · exact ht c h
  · rcases List.mem_append.mp h with h2 | h2
    · exact alphaNum_ne trig (hl c h2) ha
    · have h2b : c ∈ (['`'] : Str) := h2
      have hcb : c = '`' := by simpa using h2b
      subst hcb
      exact ht '`' (by decide)

/-- Concrete characters of the pending anchor beyond the label. -/
theorem pendingAnchor_chars (c0 : Char) (l2 : Str)
    (hl : ∀ c ∈ (c0 :: l2 : Str), isAlphaNum c = true) (trig : Char)
    (ht : ∀ c ∈ str "<a href=\"#\" class=\"eq-ref eq-pending\" data-label=\"\">(?)</a>",
      c ≠ trig)
    (ha : isAlphaNum trig = false) :
    ∀ c ∈ pendingAnchor (c0 :: l2), c ≠ trig := by
  have e : str "<a href=\"#\" class=\"eq-ref eq-pending\" data-label=\"\">(?)</a>" =
      str "<a href=\"#" ++
      (str "\" class=\"eq-ref eq-pending\" data-label=\"" ++ str "\">(?)</a>") := rfl
  rw [e] at ht
  intro c hc
  unfold pendingAnchor at hc
  simp only [List.append_assoc, List.mem_append] at hc
  rcases hc with h | h | h | h | h
  · exact ht c (List.mem_append.mpr (Or.inl h))
  · exact alphaNum_ne trig (hl c h) ha
  · exact ht c (List.mem_append.mpr (Or.inr (List.mem_append.mpr (Or.inl h))))
  · exact alphaNum_ne trig (hl c h) ha
  · exact ht c (List.mem_append.mpr (Or.inr (List.mem_append.mpr (Or.inr h))))

/-- C2's pending behaviour: a reference to a label defined nowhere in the
document renders as the pending anchor carrying the raw label; the render is
a total function, so no exception is possible. -/
theorem eqRef_pending (c0 : Char) (l2 : Str)
    (hl : ∀ c ∈ (c0 :: l2 : Str), isAlphaNum c = true) :
    parseMystMath (eqRefOnlyDoc (c0 :: l2)) = pendingAnchor (c0 :: l2) := by
  have e : parseMystMathSt (eqRefOnlyDoc (c0 :: l2)) =
      runPass colonMathStep (runPass inlineMathStep (runPass mathRoleStep
        (runPass linkRefStep (runPass eqRefStep (runPass dollarStep
          (amsEnvs.foldl (fun acc env => runPass (amsStep env) acc)
            (runPass dollarLabelStep
              (runPass mathDirStep (⟨0, []⟩, eqRefOnlyDoc (c0 :: l2)))))))))) := rfl
  have s1 : runPass mathDirStep ((⟨0, []⟩ : MathState), eqRefOnlyDoc (c0 :: l2)) =
      (⟨0, []⟩, eqRefOnlyDoc (c0 :: l2)) :=
    runPass_id _ _ (mathDir_none_on_refDoc (c0 :: l2) hl)
  have s2 : runPass dollarLabelStep ((⟨0, []⟩ : MathState), eqRefOnlyDoc (c0 :: l2)) =
      (⟨0, []⟩, eqRefOnlyDoc (c0 :: l2)) :=
    runPass_id_of_trigger _ _ '$' (fun c t hc => dollarLabelStep_none _ c t hc)
      (eqRefOnlyDoc_chars c0 l2 hl '$' (by decide) (by decide))
  have s3 : amsEnvs.foldl (fun acc env => runPass (amsStep env) acc)
      ((⟨0, []⟩ : MathState), eqRefOnlyDoc (c0 :: l2)) =
      (⟨0, []⟩, eqRefOnlyDoc (c0 :: l2)) :=
    amsFold_id _ (eqRefOnlyDoc_chars c0 l2 hl '\\' (by decide) (by decide))
  have s4 : runPass dollarStep ((⟨0, []⟩ : MathState), eqRefOnlyDoc (c0 :: l2)) =
      (⟨0, []⟩, eqRefOnlyDoc (c0 :: l2)) :=
    runPass_id_of_trigger _ _ '$' (fun c t hc => dollarStep_none _ c t hc)
      (eqRefOnlyDoc_chars c0 l2 hl '$' (by decide) (by decide))
  have s5 := runPass_eqRef_pending c0 l2 hl
  have s6 : runPass linkRefStep ((⟨0, []⟩ : MathState), pendingAnchor (c0 :: l2)) =
      (⟨0, []⟩, pendingAnchor (c0 :: l2)) :=
    runPass_id_of_trigger _ _ '[' (fun c t hc => linkRefStep_none _ c t hc)
      (pendingAnchor_chars c0 l2 hl '[' (by decide) (by decide))
  have s7 : runPass mathRoleStep ((⟨0, []⟩ : MathState), pendingAnchor (c0 :: l2)) =
      (⟨0, []⟩, pendingAnchor (c0 :: l2)) :=
    runPass_id_of_trigger _ _ '\x7b' (fun c t hc => mathRoleStep_none _ c t hc)
      (pendingAnchor_chars c0 l2 hl '\x7b' (by decide) (by decide))
  have s8 : runPass inlineMathStep ((⟨0, []⟩ : MathState), pendingAnchor (c0 :: l2)) =
      (⟨0, []⟩, pendingAnchor (c0 :: l2)) :=
    runPass_id_of_trigger _ _ '$' (fun c t hc => inlineMathStep_none _ c t hc)
      (pendingAnchor_chars c0 l2 hl '$' (by decide) (by decide))
  have s9 : runPass colonMathStep ((⟨0, []⟩ : MathState), pendingAnchor (c0 :: l2)) =
      (⟨0, []⟩, pendingAnchor (c0 :: l2)) :=
    runPass_id_of_trigger _ _ ':' (fun c t hc => colonMathStep_none _ c t hc)
      (pendingAnchor_chars c0 l2 hl ':' (by decide) (by decide))
  unfold parseMystMath
  rw [e, s1, s2, s3, s4, s5, s6, s7, s8, s9]

/-! ## C9: the keyboard-role splitting behaviour for arbitrary key names -/

/-- Alphanumeric characters are not whitespace. -/
theorem alphaNum_not_ws {c : Char} (h : isAlphaNum c = true) : isWsChar c = false := by
  cases hw : isWsChar c with
  | false => rfl
  | true =>
    simp only [isWsChar, Bool.or_eq_true, decide_eq_true_eq] at hw
    rcases hw with ((((rfl | rfl) | rfl) | rfl) | rfl) | rfl <;> exact absurd h (by decide)

/-- Splitting a separator-free string yields the singleton list. -/
theorem splitOnChar_no_sep {sep : Char} {s : Str} (h : ∀ c ∈ s, c ≠ sep) :
    splitOnChar sep s = [s] := by
  induction s with
  | nil => rfl
  | cons c t ih =>
    have hc : c ≠ sep := h c (List.mem_cons_self c t)
    rw [splitOnChar, ih (fun x hx => h x (List.mem_cons_of_mem c hx))]
    simp [hc]

/-- Splitting at the single separator between two separator-free parts. -/
theorem splitOnChar_two {sep : Char} {a b : Str}
    (ha : ∀ c ∈ a, c ≠ sep) (hb : ∀ c ∈ b, c ≠ sep) :
    splitOnChar sep (a ++ sep :: b) = [a, b] := by
  induction a with
  | nil => simp [splitOnChar, splitOnChar_no_sep hb]
  | cons c t ih =>
    have hc : c ≠ sep := ha c (List.mem_cons_self c t)
    rw [List.cons_append, splitOnChar,
      ih (fun x hx => ha x (List.mem_cons_of_mem c hx))]
    simp [hc]

/-- An identity role pass: the matcher fails at the head position and the
rest of the text is brace-free. -/
theorem roleScan_id (step : Unit → Str → Option (Unit × Str × Str))
    (c0 : Char) (s0 : Str)
    (h0 : step () (c0 :: s0) = none)
    (hstep : ∀ c t, c ≠ '\x7b' → step () (c :: t) = none)
    (hs : ∀ c ∈ s0, c ≠ '\x7b') :
    runRolePass step (c0 :: s0) = c0 :: s0 := by
  unfold runRolePass
  rw [scanReplace_id step () (c0 :: s0) ?h]
  case h =>
    intro u hu hne
    rcases List.suffix_cons_iff.mp hu with rfl | h2
    · exact h0
    · cases u with
      | nil => exact absurd rfl hne
      | cons c t => exact hstep c t (hs c (h2.subset (List.mem_cons_self c t)))

/-- An identity role pass on brace-free text. -/
theorem roleScan_id_of_trigger (step : Unit → Str → Option (Unit × Str × Str))
    (s : Str)
    (hstep : ∀ c t, c ≠ '\x7b' → step () (c :: t) = none)
    (hs : ∀ c ∈ s, c ≠ '\x7b') :
    runRolePass step s = s := by
  unfold runRolePass
  rw [scanReplace_id_of_trigger step () '\x7b' s hstep hs]

/-- A role pass that matches the whole text at its head. -/
theorem roleScan_head_match (step : Unit → Str → Option (Unit × Str × Str))
    (c0 : Char) (s0 repl : Str)
    (hm : step () (c0 :: s0) = some ((), repl, [])) :
    runRolePass step (c0 :: s0) = repl := by
  unfold runRolePass
  have key := scanReplace_head_match step () () c0 s0 repl []
      (c0 :: s0).length hm
      (fun u hu hne => absurd (List.suffix_nil.mp hu) hne)
  rw [List.append_nil] at key
  rw [key]

/-- The backtick capture of a backtick-free nonempty text. -/
theorem btCapture_closed (c0 : Char) (t : Str)
    (h : ∀ c ∈ (c0 :: t : Str), (decide (c ≠ '`')) = true) :
    btCapture ((c0 :: t) ++ str "`") = some (c0 :: t, []) := by
  unfold btCapture
  have h2 : List.takeWhile (fun c => decide (c ≠ '`')) (c0 :: (t ++ '`' :: [])) =
      c0 :: t := by
    simpa using takeWhile_append_stop h (by decide)
  have h3 : List.dropWhile (fun c => decide (c ≠ '`')) (c0 :: (t ++ '`' :: [])) =
      '`' :: [] := by
    simpa using dropWhile_append_stop h (by decide)
  have e : (str "`" : Str) = ['`'] := rfl
  rw [e]
  simp only [List.cons_append] at h2 h3 ⊢
  rw [h2, h3]
  rfl

/-- Characters after the opening brace of the keyboard-role documents. -/
theorem roleDoc_rest_chars (pre : Str) (hpre : ∀ c ∈ pre, c ≠ '\x7b')
    (a b : Str) (ha : ∀ c ∈ a, isAlphaNum c = true)
    (hb : ∀ c ∈ b, isAlphaNum c = true) :
    ∀ c ∈ pre ++ ((a ++ '+' :: b) ++ str "`"), c ≠ '\x7b' := by
  intro c hc
  rcases List.mem_append.mp hc with h | h
  · exact hpre c h
  · rcases List.mem_append.mp h with h2 | h2
    · rcases List.mem_append.mp h2 with h3 | h3
      · exact alphaNum_ne '\x7b' (ha c h3) (by decide)
      · rcases List.mem_cons.mp h3 with rfl | h4
        · decide
        · exact alphaNum_ne '\x7b' (hb c h4) (by decide)
    · have h2b : c ∈ (['`'] : Str) := h2
      have : c = '`' := by simpa using h2b
      subst this
      decide

/-- Characters of a `<kbd>`-wrapped rendering: never an opening brace. -/
theorem kbdHtml_chars (x : Str) (hx : ∀ c ∈ x, c ≠ '\x7b') (y : Str)
    (hy : ∀ c ∈ y, c ≠ '\x7b') :
    ∀ c ∈ str "<kbd>" ++ x ++ str "</kbd>" ++ str " + " ++ str "<kbd>" ++ y ++
      str "</kbd>", c ≠ '\x7b' := by
  intro c hc
  simp only [List.mem_append] at hc
  rcases hc with ((((((h | h) | h) | h) | h) | h) | h)
  · exact (by decide : ∀ x ∈ str "<kbd>", x ≠ '\x7b') c h
  · exact hx c h
  · exact (by decide : ∀ x ∈ str "</kbd>", x ≠ '\x7b') c h
  · exact (by decide : ∀ x ∈ str " + ", x ≠ '\x7b') c h
  · exact (by decide : ∀ x ∈ str "<kbd>", x ≠ '\x7b') c h
  · exact hy c h
  · exact (by decide : ∀ x ∈ str "</kbd>", x ≠ '\x7b') c h

/-- The splitting replacement on a two-key text. -/
theorem kbdSplitHtml_two (a b : Str)
    (ha : ∀ c ∈ a, isAlphaNum c = true) (hb : ∀ c ∈ b, isAlphaNum c = true) :
    kbdSplitHtml (a ++ '+' :: b) =
      str "<kbd>" ++ a ++ str "</kbd>" ++ str " + " ++ str "<kbd>" ++ b ++
      str "</kbd>" := by
  unfold kbdSplitHtml
  rw [splitOnChar_two
    (fun c hc => alphaNum_ne '+' (ha c hc) (by decide))
    (fun c hc => alphaNum_ne '+' (hb c hc) (by decide))]
  simp only [List.map]
  rw [trimStr_eq_self (fun c hc => alphaNum_not_ws (ha c hc)),
    trimStr_eq_self (fun c hc => alphaNum_not_ws (hb c hc))]
  show (str "<kbd>" ++ a ++ str "</kbd>") ++ str " + " ++
    (str "<kbd>" ++ b ++ str "</kbd>") = _
  simp [List.append_assoc]

/-- `<kbd>`-wrapped text contains no opening brace when the text has none. -/
theorem kbdSingle_chars (txt : Str) (htxt : ∀ c ∈ txt, c ≠ '\x7b') :
    ∀ c ∈ str "<kbd>" ++ txt ++ str "</kbd>", c ≠ '\x7b' := by
  intro c hc
  simp only [List.mem_append] at hc
  rcases hc with (h | h) | h
  · exact (by decide : ∀ x ∈ str "<kbd>", x ≠ '\x7b') c h
  · exact htxt c h
  · exact (by decide : ∀ x ∈ str "</kbd>", x ≠ '\x7b') c h

/-- The two-key text contains no opening brace. -/
theorem keysText_chars (a b : Str) (ha : ∀ c ∈ a, isAlphaNum c = true)
    (hb : ∀ c ∈ b, isAlphaNum c = true) :
    ∀ c ∈ a ++ '+' :: b, c ≠ '\x7b' := by
  intro c hc
  rcases List.mem_append.mp hc with h | h
  · exact alphaNum_ne '\x7b' (ha c h) (by decide)
  · rcases List.mem_cons.mp h with rfl | h2
    · decide
    · exact alphaNum_ne '\x7b' (hb c h2) (by decide)

/-- Every character of the two-key text differs from a backtick. -/
theorem keysText_noBt (a b : Str) (ha : ∀ c ∈ a, isAlphaNum c = true)
    (hb : ∀ c ∈ b, isAlphaNum c = true) :
    ∀ c ∈ a ++ '+' :: b, (decide (c ≠ '`')) = true := by
  intro c hc
  rcases List.mem_append.mp hc with h | h
  · simp [alphaNum_ne '`' (ha c h) (by decide)]
  · rcases List.mem_cons.mp h with rfl | h2
    · decide
    · simp [alphaNum_ne '`' (hb c h2) (by decide)]

/-- The amended splitting law for the `keyboard` role: for nonempty
alphanumeric key names, the role engine splits on `+`, trims each key and
wraps it in its own `<kbd>` element, joined with ` + `. -/
theorem keyboard_role_splits (a b : Str) (hane : a ≠ []) (hbne : b ≠ [])
    (ha : ∀ c ∈ a, isAlphaNum c = true) (hb : ∀ c ∈ b, isAlphaNum c = true) :
    parseMystRoles (str "\x7bkeyboard\x7d`" ++ ((a ++ '+' :: b) ++ str "`")) =
      str "<kbd>" ++ a ++ str "</kbd>" ++ str " + " ++ str "<kbd>" ++ b ++
      str "</kbd>" := by
  obtain ⟨a0, a2, rfl⟩ := List.exists_cons_of_ne_nil hane
  obtain ⟨b0, b2, rfl⟩ := List.exists_cons_of_ne_nil hbne
  have hrest : ∀ c ∈ str "keyboard\x7d`" ++ (((a0 :: a2) ++ '+' :: (b0 :: b2)) ++ str "`"),
      c ≠ '\x7b' := roleDoc_rest_chars (str "keyboard\x7d`") (by decide) _ _ ha hb
  have tpre : ∀ step : Unit → Str → Option (Unit × Str × Str),
      step () ('\x7b' :: (str "keyboard\x7d`" ++ (((a0 :: a2) ++ '+' :: (b0 :: b2)) ++ str "`"))) = none →
      (∀ c t, c ≠ '\x7b' → step () (c :: t) = none) →
      runRolePass step ('\x7b' :: (str "keyboard\x7d`" ++ (((a0 :: a2) ++ '+' :: (b0 :: b2)) ++ str "`"))) =
        '\x7b' :: (str "keyboard\x7d`" ++ (((a0 :: a2) ++ '+' :: (b0 :: b2)) ++ str "`")) :=
    fun step h0 hst => roleScan_id step '\x7b' _ h0 hst hrest
  have hout := kbdHtml_chars (a0 :: a2)
    (fun c hc => alphaNum_ne '\x7b' (ha c hc) (by decide)) (b0 :: b2)
    (fun c hc => alphaNum_ne '\x7b' (hb c hc) (by decide))
  have tpost : ∀ step : Unit → Str → Option (Unit × Str × Str),
      (∀ c t, c ≠ '\x7b' → step () (c :: t) = none) →
      runRolePass step (str "<kbd>" ++ (a0 :: a2) ++ str "</kbd>" ++ str " + " ++
        str "<kbd>" ++ (b0 :: b2) ++ str "</kbd>") =
      str "<kbd>" ++ (a0 :: a2) ++ str "</kbd>" ++ str " + " ++
        str "<kbd>" ++ (b0 :: b2) ++ str "</kbd>" :=
    fun step hst => roleScan_id_of_trigger step _ hst hout
  have hcapt : btCapture (((a0 :: a2) ++ '+' :: (b0 :: b2)) ++ str "`") =
      some ((a0 :: a2) ++ '+' :: (b0 :: b2), []) := by
    have key := btCapture_closed a0 (a2 ++ '+' :: (b0 :: b2))
      (by
        intro c hc
        exact keysText_noBt (a0 :: a2) (b0 :: b2) ha hb c (by simpa using hc))
    simp only [show (str "`" : Str) = ['`'] from rfl, List.cons_append,
      List.append_assoc] at key ⊢
    exact key
  have hm12 : altRoleStep (str "\x7bkbd\x7d`") (str "\x7bkeyboard\x7d`") kbdSplitHtml ()
      ('\x7b' :: (str "keyboard\x7d`" ++ (((a0 :: a2) ++ '+' :: (b0 :: b2)) ++ str "`"))) =
      some ((), kbdSplitHtml ((a0 :: a2) ++ '+' :: (b0 :: b2)), []) := by
    show (match btCapture (((a0 :: a2) ++ '+' :: (b0 :: b2)) ++ str "`") with
      | some (txt, rest) => some (((), kbdSplitHtml txt, rest) : Unit × Str × Str)
      | none => none) =
      some ((), kbdSplitHtml ((a0 :: a2) ++ '+' :: (b0 :: b2)), [])
    rw [hcapt]
  have t12 : runRolePass
      (altRoleStep (str "\x7bkbd\x7d`") (str "\x7bkeyboard\x7d`") kbdSplitHtml)
      ('\x7b' :: (str "keyboard\x7d`" ++ (((a0 :: a2) ++ '+' :: (b0 :: b2)) ++ str "`"))) =
      str "<kbd>" ++ (a0 :: a2) ++ str "</kbd>" ++ str " + " ++
        str "<kbd>" ++ (b0 :: b2) ++ str "</kbd>" := by
    rw [roleScan_head_match _ _ _ _ hm12]
    exact kbdSplitHtml_two (a0 :: a2) (b0 :: b2) ha hb
  have e : parseMystRoles
      (str "\x7bkeyboard\x7d`" ++ (((a0 :: a2) ++ '+' :: (b0 :: b2)) ++ str "`")) =
      runRolePass (altRoleStep (str "\x7bsc\x7d`") (str "\x7bsmallcaps\x7d`")
        (fun t => str "<span class=\"smallcaps\">" ++ t ++ str "</span>"))
      (runRolePass (altRoleStep (str "\x7bu\x7d`") (str "\x7bunderline\x7d`")
        (fun t => str "<u>" ++ t ++ str "</u>"))
      (runRolePass (altRoleStep (str "\x7bdel\x7d`") (str "\x7bstrike\x7d`")
        (fun t => str "<del>" ++ t ++ str "</del>"))
      (runRolePass abbr2Step
      (runRolePass (altRoleStep (str "\x7bkbd\x7d`") (str "\x7bkeyboard\x7d`") kbdSplitHtml)
      (runRolePass (altRoleStep (str "\x7bsup\x7d`") (str "\x7bsuperscript\x7d`")
        (fun t => str "<sup>" ++ t ++ str "</sup>"))
      (runRolePass (altRoleStep (str "\x7bsub\x7d`") (str "\x7bsubscript\x7d`")
        (fun t => str "<sub>" ++ t ++ str "</sub>"))
      (runRolePass (simpleRoleStep (str "\x7bsc\x7d`")
        (str "<span style=\"font-variant: small-caps;\">") (str "</span>"))
      (runRolePass (simpleRoleStep (str "\x7bu\x7d`") (str "<u>") (str "</u>"))
      (runRolePass (simpleRoleStep (str "\x7bdel\x7d`") (str "<del>") (str "</del>"))
      (runRolePass abbrStep
      (runRolePass (simpleRoleStep (str "\x7bkbd\x7d`") (str "<kbd>") (str "</kbd>"))
      (runRolePass (simpleRoleStep (str "\x7bsup\x7d`") (str "<sup>") (str "</sup>"))
      (runRolePass (simpleRoleStep (str "\x7bsub\x7d`") (str "<sub>") (str "</sub>"))
      (runRolePass termStep
      (runRolePass buttonStep
        ('\x7b' :: (str "keyboard\x7d`" ++ (((a0 :: a2) ++ '+' :: (b0 :: b2)) ++ str "`")))))))))))))))))) := rfl
  rw [e]
  rw [tpre buttonStep rfl (fun c t h => buttonStep_none c t h)]
  rw [tpre termStep rfl (fun c t h => termStep_none c t h)]
  rw [tpre (simpleRoleStep (str "\x7bsub\x7d`") (str "<sub>") (str "</sub>")) rfl
    (fun c t h => simpleRoleStep_none (str "sub\x7d`") _ _ c t h)]
  rw [tpre (simpleRoleStep (str "\x7bsup\x7d`") (str "<sup>") (str "</sup>")) rfl
    (fun c t h => simpleRoleStep_none (str "sup\x7d`") _ _ c t h)]
  rw [tpre (simpleRoleStep (str "\x7bkbd\x7d`") (str "<kbd>") (str "</kbd>")) rfl
    (fun c t h => simpleRoleStep_none (str "kbd\x7d`") _ _ c t h)]
  rw [tpre abbrStep rfl (fun c t h => abbrStep_none c t h)]
  rw [tpre (simpleRoleStep (str "\x7bdel\x7d`") (str "<del>") (str "</del>")) rfl
    (fun c t h => simpleRoleStep_none (str "del\x7d`") _ _ c t h)]
  rw [tpre (simpleRoleStep (str "\x7bu\x7d`") (str "<u>") (str "</u>")) rfl
    (fun c t h => simpleRoleStep_none (str "u\x7d`") _ _ c t h)]
  rw [tpre (simpleRoleStep (str "\x7bsc\x7d`")
      (str "<span style=\"font-variant: small-caps;\">") (str "</span>")) rfl
    (fun c t h => simpleRoleStep_none (str "sc\x7d`") _ _ c t h)]
  rw [tpre (altRoleStep (str "\x7bsub\x7d`") (str "\x7bsubscript\x7d`")
      (fun t => str "<sub>" ++ t ++ str "</sub>")) rfl
    (fun c t h => altRoleStep_none (str "sub\x7d`") (str "subscript\x7d`") _ c t h)]
  rw [tpre (altRoleStep (str "\x7bsup\x7d`") (str "\x7bsuperscript\x7d`")
      (fun t => str "<sup>" ++ t ++ str "</sup>")) rfl
    (fun c t h => altRoleStep_none (str "sup\x7d`") (str "superscript\x7d`") _ c t h)]
  rw [t12]
  rw [tpost abbr2Step (fun c t h => abbr2Step_none c t h)]
  rw [tpost (altRoleStep (str "\x7bdel\x7d`") (str "\x7bstrike\x7d`")
      (fun t => str "<del>" ++ t ++ str "</del>"))
    (fun c t h => altRoleStep_none (str "del\x7d`") (str "strike\x7d`") _ c t h)]
  rw [tpost (altRoleStep (str "\x7bu\x7d`") (str "\x7bunderline\x7d`")
      (fun t => str "<u>" ++ t ++ str "</u>"))
    (fun c t h => altRoleStep_none (str "u\x7d`") (str "underline\x7d`") _ c t h)]
  rw [tpost (altRoleStep (str "\x7bsc\x7d`") (str "\x7bsmallcaps\x7d`")
      (fun t => str "<span class=\"smallcaps\">" ++ t ++ str "</span>"))
    (fun c t h => altRoleStep_none (str "sc\x7d`") (str "smallcaps\x7d`") _ c t h)]

/-- The amended whole-text law for the `kbd` role: the simple kbd pass
consumes it first, rendering the entire text (including `+`) inside a
single `<kbd>` element. -/
theorem kbd_role_single (a b : Str) (hane : a ≠ []) (hbne : b ≠ [])
    (ha : ∀ c ∈ a, isAlphaNum c = true) (hb : ∀ c ∈ b, isAlphaNum c = true) :
    parseMystRoles (str "\x7bkbd\x7d`" ++ ((a ++ '+' :: b) ++ str "`")) =
      str "<kbd>" ++ (a ++ '+' :: b) ++ str "</kbd>" := by
  obtain ⟨a0, a2, rfl⟩ := List.exists_cons_of_ne_nil hane
  obtain ⟨b0, b2, rfl⟩ := List.exists_cons_of_ne_nil hbne
  have hrest : ∀ c ∈ str "kbd\x7d`" ++ (((a0 :: a2) ++ '+' :: (b0 :: b2)) ++ str "`"),
      c ≠ '\x7b' := roleDoc_rest_chars (str "kbd\x7d`") (by decide) _ _ ha hb
  have tpre : ∀ step : Unit → Str → Option (Unit × Str × Str),
      step () ('\x7b' :: (str "kbd\x7d`" ++ (((a0 :: a2) ++ '+' :: (b0 :: b2)) ++ str "`"))) = none →
      (∀ c t, c ≠ '\x7b' → step () (c :: t) = none) →
      runRolePass step ('\x7b' :: (str "kbd\x7d`" ++ (((a0 :: a2) ++ '+' :: (b0 :: b2)) ++ str "`"))) =
        '\x7b' :: (str "kbd\x7d`" ++ (((a0 :: a2) ++ '+' :: (b0 :: b2)) ++ str "`")) :=
    fun step h0 hst => roleScan_id step '\x7b' _ h0 hst hrest
  have hout := kbdSingle_chars ((a0 :: a2) ++ '+' :: (b0 :: b2))
    (keysText_chars (a0 :: a2) (b0 :: b2) ha hb)
  have tpost : ∀ step : Unit → Str → Option (Unit × Str × Str),
      (∀ c t, c ≠ '\x7b' → step () (c :: t) = none) →
      runRolePass step (str "<kbd>" ++ ((a0 :: a2) ++ '+' :: (b0 :: b2)) ++ str "</kbd>") =
        str "<kbd>" ++ ((a0 :: a2) ++ '+' :: (b0 :: b2)) ++ str "</kbd>" :=
    fun step hst => roleScan_id_of_trigger step _ hst hout
  have hcapt : btCapture (((a0 :: a2) ++ '+' :: (b0 :: b2)) ++ str "`") =
      some ((a0 :: a2) ++ '+' :: (b0 :: b2), []) := by
    have key := btCapture_closed a0 (a2 ++ '+' :: (b0 :: b2))
      (by
        intro c hc
        exact keysText_noBt (a0 :: a2) (b0 :: b2) ha hb c (by simpa using hc))
    simp only [show (str "`" : Str) = ['`'] from rfl, List.cons_append,
      List.append_assoc] at key ⊢
    exact key
  have hm5 : simpleRoleStep (str "\x7bkbd\x7d`") (str "<kbd>") (str "</kbd>") ()
      ('\x7b' :: (str "kbd\x7d`" ++ (((a0 :: a2) ++ '+' :: (b0 :: b2)) ++ str "`"))) =
      some ((), str "<kbd>" ++ ((a0 :: a2) ++ '+' :: (b0 :: b2)) ++ str "</kbd>", []) := by
    show (match btCapture (((a0 :: a2) ++ '+' :: (b0 :: b2)) ++ str "`") with
      | some (txt, rest) =>
        some (((), str "<kbd>" ++ txt ++ str "</kbd>", rest) : Unit × Str × Str)
      | none => none) =
      some ((), str "<kbd>" ++ ((a0 :: a2) ++ '+' :: (b0 :: b2)) ++ str "</kbd>", [])
    rw [hcapt]
  have t5 : runRolePass (simpleRoleStep (str "\x7bkbd\x7d`") (str "<kbd>") (str "</kbd>"))
      ('\x7b' :: (str "kbd\x7d`" ++ (((a0 :: a2) ++ '+' :: (b0 :: b2)) ++ str "`"))) =
      str "<kbd>" ++ ((a0 :: a2) ++ '+' :: (b0 :: b2)) ++ str "</kbd>" :=
    roleScan_head_match _ _ _ _ hm5
  have e : parseMystRoles
      (str "\x7bkbd\x7d`" ++ (((a0 :: a2) ++ '+' :: (b0 :: b2)) ++ str "`")) =
      runRolePass (altRoleStep (str "\x7bsc\x7d`") (str "\x7bsmallcaps\x7d`")
        (fun t => str "<span class=\"smallcaps\">" ++ t ++ str "</span>"))
      (runRolePass (altRoleStep (str "\x7bu\x7d`") (str "\x7bunderline\x7d`")
        (fun t => str "<u>" ++ t ++ str "</u>"))
      (runRolePass (altRoleStep (str "\x7bdel\x7d`") (str "\x7bstrike\x7d`")
        (fun t => str "<del>" ++ t ++ str "</del>"))
      (runRolePass abbr2Step
      (runRolePass (altRoleStep (str "\x7bkbd\x7d`") (str "\x7bkeyboard\x7d`") kbdSplitHtml)
      (runRolePass (altRoleStep (str "\x7bsup\x7d`") (str "\x7bsuperscript\x7d`")
        (fun t => str "<sup>" ++ t ++ str "</sup>"))
      (runRolePass (altRoleStep (str "\x7bsub\x7d`") (str "\x7bsubscript\x7d`")
        (fun t => str "<sub>" ++ t ++ str "</sub>"))
      (runRolePass (simpleRoleStep (str "\x7bsc\x7d`")
        (str "<span style=\"font-variant: small-caps;\">") (str "</span>"))
      (runRolePass (simpleRoleStep (str "\x7bu\x7d`") (str "<u>") (str "</u>"))
      (runRolePass (simpleRoleStep (str "\x7bdel\x7d`") (str "<del>") (str "</del>"))
      (runRolePass abbrStep
      (runRolePass (simpleRoleStep (str "\x7bkbd\x7d`") (str "<kbd>") (str "</kbd>"))
      (runRolePass (simpleRoleStep (str "\x7bsup\x7d`") (str "<sup>") (str "</sup>"))
      (runRolePass (simpleRoleStep (str "\x7bsub\x7d`") (str "<sub>") (str "</sub>"))
      (runRolePass termStep
      (runRolePass buttonStep
        ('\x7b' :: (str "kbd\x7d`" ++ (((a0 :: a2) ++ '+' :: (b0 :: b2)) ++ str "`")))))))))))))))))) := rfl
  rw [e]
  rw [tpre buttonStep rfl (fun c t h => buttonStep_none c t h)]
  rw [tpre termStep rfl (fun c t h => termStep_none c t h)]
  rw [tpre (simpleRoleStep (str "\x7bsub\x7d`") (str "<sub>") (str "</sub>")) rfl
    (fun c t h => simpleRoleStep_none (str "sub\x7d`") _ _ c t h)]
  rw [tpre (simpleRoleStep (str "\x7bsup\x7d`") (str "<sup>") (str "</sup>")) rfl
    (fun c t h => simpleRoleStep_none (str "sup\x7d`") _ _ c t h)]
  rw [t5]
  rw [tpost abbrStep (fun c t h => abbrStep_none c t h)]
  rw [tpost (simpleRoleStep (str "\x7bdel\x7d`") (str "<del>") (str "</del>"))
    (fun c t h => simpleRoleStep_none (str "del\x7d`") _ _ c t h)]
  rw [tpost (simpleRoleStep (str "\x7bu\x7d`") (str "<u>") (str "</u>"))
    (fun c t h => simpleRoleStep_none (str "u\x7d`") _ _ c t h)]
  rw [tpost (simpleRoleStep (str "\x7bsc\x7d`")
      (str "<span style=\"font-variant: small-caps;\">") (str "</span>"))
    (fun c t h => simpleRoleStep_none (str "sc\x7d`") _ _ c t h)]
  rw [tpost (altRoleStep (str "\x7bsub\x7d`") (str "\x7bsubscript\x7d`")
      (fun t => str "<sub>" ++ t ++ str "</sub>"))
    (fun c t h => altRoleStep_none (str "sub\x7d`") (str "subscript\x7d`") _ c t h)]
  rw [tpost (altRoleStep (str "\x7bsup\x7d`") (str "\x7bsuperscript\x7d`")
      (fun t => str "<sup>" ++ t ++ str "</sup>"))
    (fun c t h => altRoleStep_none (str "sup\x7d`") (str "superscript\x7d`") _ c t h)]
  rw [tpost (altRoleStep (str "\x7bkbd\x7d`") (str "\x7bkeyboard\x7d`") kbdSplitHtml)
    (fun c t h => altRoleStep_none (str "kbd\x7d`") (str "keyboard\x7d`") _ c t h)]
  rw [tpost abbr2Step (fun c t h => abbr2Step_none c t h)]
  rw [tpost (altRoleStep (str "\x7bdel\x7d`") (str "\x7bstrike\x7d`")
      (fun t => str "<del>" ++ t ++ str "</del>"))
    (fun c t h => altRoleStep_none (str "del\x7d`") (str "strike\x7d`") _ c t h)]
  rw [tpost (altRoleStep (str "\x7bu\x7d`") (str "\x7bunderline\x7d`")
      (fun t => str "<u>" ++ t ++ str "</u>"))
    (fun c t h => altRoleStep_none (str "u\x7d`") (str "underline\x7d`") _ c t h)]
  rw [tpost (altRoleStep (str "\x7bsc\x7d`") (str "\x7bsmallcaps\x7d`")
      (fun t => str "<span class=\"smallcaps\">" ++ t ++ str "</span>"))
    (fun c t h => altRoleStep_none (str "sc\x7d`") (str "smallcaps\x7d`") _ c t h)]

/-- Splitting an append whose left part is separator-free extends the first
field of the right part's split. -/
theorem splitOnChar_append_left {sep : Char} {x y : Str} {h : Str} {t : List Str}
    (hx : ∀ c ∈ x, c ≠ sep) (hy : splitOnChar sep y = h :: t) :
    splitOnChar sep (x ++ y) = (x ++ h) :: t := by
  induction x with
  | nil => simpa using hy
  | cons c x2 ih =>
    have hc : c ≠ sep := hx c (List.mem_cons_self c x2)
    rw [List.cons_append, splitOnChar,
      ih (fun a ha => hx a (List.mem_cons_of_mem c ha))]
    simp [hc]

/-- C6: a figure directive whose argument is a `#name` back reference with
no target definition anywhere renders the visible target-not-found error
figure (and no `<img>` element), for every alphanumeric target name. -/
theorem figure_target_not_found (n0 : Char) (n2 : Str)
    (hn : ∀ c ∈ (n0 :: n2 : Str), isAlphaNum c = true) :
    parseMystFigures
      (str "```\x7bfigure\x7d #" ++ ((n0 :: n2) ++ str "\nCap\n```")) =
      str "<figure class=\"myst-figure\"><div class=\"figure-error\">Image target not found</div><figcaption>Cap</figcaption></figure>" := by
  have hxnl : ∀ c ∈ str "```\x7bfigure\x7d #" ++ (n0 :: n2), c ≠ '\n' := by
    intro c hc
    rcases List.mem_append.mp hc with h | h
    · exact (by decide : ∀ a ∈ str "```\x7bfigure\x7d #", a ≠ '\n') c h
    · exact alphaNum_ne '\n' (hn c h) (by decide)
  have hlines : splitOnChar '\n'
      (str "```\x7bfigure\x7d #" ++ ((n0 :: n2) ++ str "\nCap\n```")) =
      [(str "```\x7bfigure\x7d #" ++ (n0 :: n2)) ++ [], str "Cap", str "```"] := by
    rw [show (str "```\x7bfigure\x7d #" ++ ((n0 :: n2) ++ str "\nCap\n```") : Str) =
      (str "```\x7bfigure\x7d #" ++ (n0 :: n2)) ++ str "\nCap\n```" from
      (List.append_assoc _ _ _).symm]
    exact splitOnChar_append_left hxnl rfl
  have hrtl : runTargetLines
      [(str "```\x7bfigure\x7d #" ++ (n0 :: n2)) ++ [], str "Cap", str "```"] [] =
      ([], [(str "```\x7bfigure\x7d #" ++ (n0 :: n2)) ++ [], str "Cap", str "```"]) := by
    rw [List.append_nil]
    rfl
  have harg : List.takeWhile (fun c => !(isWsChar c))
      ((n0 :: n2) ++ str "\nCap\n```") = n0 :: n2 := by
    have key := takeWhile_append_stop (p := fun c => !(isWsChar c))
      (l := n0 :: n2) (c := '\n') (r := str "Cap\n```")
      (fun a ha => by simp [alphaNum_not_ws (hn a ha)]) (by decide)
    simpa using key
  have hdrop : List.dropWhile (fun c => !(isWsChar c))
      ((n0 :: n2) ++ str "\nCap\n```") = '\n' :: str "Cap\n```" := by
    have key := dropWhile_append_stop (p := fun c => !(isWsChar c))
      (l := n0 :: n2) (c := '\n') (r := str "Cap\n```")
      (fun a ha => by simp [alphaNum_not_ws (hn a ha)]) (by decide)
    simpa using key
  have hfm : figureStep [] ()
      (str "```\x7bfigure\x7d" ++ (str " #" ++ ((n0 :: n2) ++ str "\nCap\n```"))) =
      some ((), str "<figure class=\"myst-figure\"><div class=\"figure-error\">Image target not found</div><figcaption>Cap</figcaption></figure>", []) := by
    unfold figureStep
    rw [dropPre?_append_self]
    dsimp only
    rw [show List.dropWhile isWsChar (str " #" ++ ((n0 :: n2) ++ str "\nCap\n```")) =
      '#' :: ((n0 :: n2) ++ str "\nCap\n```") from rfl]
    rw [show List.takeWhile (fun c => !(isWsChar c))
        ('#' :: ((n0 :: n2) ++ str "\nCap\n```")) =
      '#' :: List.takeWhile (fun c => !(isWsChar c)) ((n0 :: n2) ++ str "\nCap\n```") from
      List.takeWhile_cons_of_pos (by decide)]
    rw [harg]
    rw [show List.dropWhile (fun c => !(isWsChar c))
        ('#' :: ((n0 :: n2) ++ str "\nCap\n```")) =
      List.dropWhile (fun c => !(isWsChar c)) ((n0 :: n2) ++ str "\nCap\n```") from
      List.dropWhile_cons_of_pos (by decide)]
    rw [hdrop]
    rfl
  have escan : scanReplace (figureStep [])
      ((str "```\x7bfigure\x7d" ++ (str " #" ++ ((n0 :: n2) ++ str "\nCap\n```"))).length + 1) ()
      (str "```\x7bfigure\x7d" ++ (str " #" ++ ((n0 :: n2) ++ str "\nCap\n```"))) =
      ((), str "<figure class=\"myst-figure\"><div class=\"figure-error\">Image target not found</div><figcaption>Cap</figcaption></figure>") := by
    rw [show (str "```\x7bfigure\x7d" ++ (str " #" ++ ((n0 :: n2) ++ str "\nCap\n```")) : Str) =
      '`' :: (str "``\x7bfigure\x7d" ++ (str " #" ++ ((n0 :: n2) ++ str "\nCap\n```"))) from rfl]
    have key := scanReplace_head_match (figureStep []) () () '`'
      (str "``\x7bfigure\x7d" ++ (str " #" ++ ((n0 :: n2) ++ str "\nCap\n```")))
      (str "<figure class=\"myst-figure\"><div class=\"figure-error\">Image target not found</div><figcaption>Cap</figcaption></figure>")
      []
      ('`' :: (str "``\x7bfigure\x7d" ++ (str " #" ++ ((n0 :: n2) ++ str "\nCap\n```")))).length
      hfm (fun u hu hne => absurd (List.suffix_nil.mp hu) hne)
    rw [List.append_nil] at key
    exact key
  unfold parseMystFigures
  rw [hlines]
  dsimp only
  rw [hrtl]
  dsimp only
  rw [show joinSep (str "\n")
      [(str "```\x7bfigure\x7d #" ++ (n0 :: n2)) ++ [], str "Cap", str "```"] =
    ((str "```\x7bfigure\x7d #" ++ (n0 :: n2)) ++ []) ++ str "\n" ++
      (str "Cap" ++ str "\n" ++ str "```") from rfl]
  rw [List.append_nil]
  rw [show ((str "```\x7bfigure\x7d #" ++ (n0 :: n2)) ++ str "\n" ++
      (str "Cap" ++ str "\n" ++ str "```") : Str) =
    str "```\x7bfigure\x7d" ++ (str " #" ++ ((n0 :: n2) ++ str "\nCap\n```")) from ?_]
  · rw [escan]
  · rw [show (str "```\x7bfigure\x7d #" : Str) =
      str "```\x7bfigure\x7d" ++ str " #" from rfl]
    simp only [List.append_assoc]
    rw [show (str "\n" ++ (str "Cap" ++ (str "\n" ++ str "```")) : Str) =
      str "\nCap\n```" from rfl]

/-- A list whose `takeWhile` keeps everything. -/
theorem takeWhile_all {p : Char → Bool} {l : Str} (h : ∀ c ∈ l, p c = true) :
    l.takeWhile p = l := by
  induction l with
  | nil => rfl
  | cons a t ih =>
    rw [List.takeWhile_cons_of_pos (h a (List.mem_cons_self a t)),
      ih (fun c hc => h c (List.mem_cons_of_mem a hc))]

/-- `findVParam` skips a prefix free of `?` and `&`. -/
theorem findVParam_append (pre : Str) (t : Str) (f fuel : Nat)
    (hf : f = pre.length + fuel)
    (hp : ∀ c ∈ pre, c ≠ '?' ∧ c ≠ '&') :
    findVParam f (pre ++ t) = findVParam fuel t := by
  induction pre generalizing f with
  | nil => simp at hf; simp [hf]
  | cons c p ih =>
    obtain ⟨h1, h2⟩ := hp c (List.mem_cons_self c p)
    have hf2 : f = (p.length + fuel) + 1 := by rw [hf, List.length_cons]; omega
    rw [hf2, List.cons_append]
    simp only [findVParam, h1, h2]
    exact ih (p.length + fuel) rfl (fun a ha => hp a (List.mem_cons_of_mem c ha))

/-- `findVParam` succeeds at `?v=` when the id has no `&`. -/
theorem findVParam_hit (m : Nat) (v0 : Char) (v2 : Str)
    (hv : List.takeWhile (fun x => !decide (x = '&')) (v0 :: v2) = v0 :: v2) :
    findVParam (m + 1) ('?' :: 'v' :: '=' :: (v0 :: v2)) = some (v0 :: v2) := by
  simp [findVParam, hv]

/-- `splitFirst` finds nothing when the pattern matches at no position. -/
theorem splitFirst_eq_none {pat s : Str}
    (h : ∀ c t, (c :: t) <:+ s → dropPre? pat (c :: t) = none) :
    splitFirst pat s = none := by
  induction s with
  | nil => rfl
  | cons c t ih =>
    have h0 := h c t (List.suffix_refl _)
    have ht : splitFirst pat t = none :=
      ih (fun a b hab => h a b (hab.trans (List.suffix_cons c t)))
    simp [splitFirst, h0, ht]

/-- A pattern with a non-alphanumeric character cannot prefix an
all-alphanumeric string. -/
theorem dropPre?_none_alnum (pre : Str) (bad : Char) (rest : Str)
    (hbad : isAlphaNum bad = false) :
    ∀ u : Str, (∀ c ∈ u, isAlphaNum c = true) → dropPre? (pre ++ bad :: rest) u = none := by
  induction pre with
  | nil =>
    intro u hu
    cases u with
    | nil => rfl
    | cons c t =>
      rw [List.nil_append]
      exact dropPre?_head_ne
        (Ne.symm (alphaNum_ne bad (hu c (List.mem_cons_self c t)) hbad))
  | cons p ps ih =>
    intro u hu
    cases u with
    | nil => rfl
    | cons c t =>
      rw [List.cons_append]
      by_cases hpc : p = c
      · simp only [dropPre?, hpc, if_pos]
        exact ih t (fun a ha => hu a (List.mem_cons_of_mem c ha))
      · exact dropPre?_head_ne hpc

/-- An early mismatch in the concrete part rules out a prefix match
regardless of what follows. -/
theorem dropPre?_none_of_earlyMismatch {pat x : Str}
    (h : earlyMismatch pat x = true) (y : Str) :
    dropPre? pat (x ++ y) = none := by
  induction pat generalizing x with
  | nil => simp [earlyMismatch] at h
  | cons p ps ih =>
    cases x with
    | nil => simp [earlyMismatch] at h
    | cons c t =>
      rw [List.cons_append]
      by_cases hpc : p = c
      · simp only [dropPre?, hpc, if_pos]
        exact ih (by simpa [earlyMismatch, hpc] using h)
      · exact dropPre?_head_ne hpc

/-- No `youtube.com/watch` substring in a `youtu.be` short URL with an
alphanumeric id. -/
theorem no_watch_in_short (v0 : Char) (v2 : Str)
    (hv : ∀ c ∈ (v0 :: v2 : Str), isAlphaNum c = true) :
    containsSub (str "youtube.com/watch") (str "https://youtu.be/" ++ (v0 :: v2)) = false := by
  unfold containsSub
  rw [splitFirst_eq_none ?_]
  · rfl
  · intro c t hsuf
    rcases suffix_append_cases hsuf with h1 | ⟨x1, hx1, hne, heq⟩
    · rw [show (str "youtube.com/watch" : Str) = str "youtube" ++ '.' :: str "com/watch" from rfl]
      exact dropPre?_none_alnum (str "youtube") '.' (str "com/watch") (by decide)
        (c :: t) (fun a ha => hv a (h1.subset ha))
    · rw [heq]
      exact dropPre?_none_of_earlyMismatch
        ((by decide : ∀ y ∈ (str "https://youtu.be/" : Str).tails, y ≠ [] →
            earlyMismatch (str "youtube.com/watch") y = true)
          x1 ((List.mem_tails x1 _).mpr hx1) hne) (v0 :: v2)

/-- The id of a `youtu.be` URL holds no further `youtu.be/` occurrence. -/
theorem no_short_in_id (v0 : Char) (v2 : Str)
    (hv : ∀ c ∈ (v0 :: v2 : Str), isAlphaNum c = true) :
    splitFirst (str "youtu.be/") (v0 :: v2) = none :=
  splitFirst_eq_none (fun c t hsuf => by
    rw [show (str "youtu.be/" : Str) = str "youtu" ++ '.' :: str "be/" from rfl]
    exact dropPre?_none_alnum (str "youtu") '.' (str "be/") (by decide)
      (c :: t) (fun a ha => hv a (hsuf.subset ha)))

/-- Watch-URL conversion of `youtubeEmbedUrl`. -/
theorem youtubeEmbedUrl_watch (v0 : Char) (v2 : Str)
    (hv : ∀ c ∈ (v0 :: v2 : Str), isAlphaNum c = true) :
    youtubeEmbedUrl (str "https://www.youtube.com/watch?v=" ++ (v0 :: v2)) =
      str "https://www.youtube.com/embed/" ++ (v0 :: v2) := by
  have htw : List.takeWhile (fun x => !decide (x = '&')) (v0 :: v2) = v0 :: v2 :=
    takeWhile_all (fun c hc => by simp [alphaNum_ne '&' (hv c hc) (by decide)])
  have hfind : findVParam
      ((str "https://www.youtube.com/watch?v=" ++ (v0 :: v2)).length + 1)
      (str "https://www.youtube.com/watch?v=" ++ (v0 :: v2)) = some (v0 :: v2) := by
    rw [show (str "https://www.youtube.com/watch?v=" ++ (v0 :: v2) : Str) =
      str "https://www.youtube.com/watch" ++ ('?' :: 'v' :: '=' :: (v0 :: v2)) from rfl]
    rw [findVParam_append (str "https://www.youtube.com/watch")
      ('?' :: 'v' :: '=' :: (v0 :: v2)) _ ((v0 :: v2 : Str).length + 4)
      (by simp [List.length_append, List.length_cons]; omega) (by decide)]
    exact findVParam_hit ((v0 :: v2 : Str).length + 3) v0 v2 htw
  have e : youtubeEmbedUrl (str "https://www.youtube.com/watch?v=" ++ (v0 :: v2)) =
      (match findVParam
          ((str "https://www.youtube.com/watch?v=" ++ (v0 :: v2)).length + 1)
          (str "https://www.youtube.com/watch?v=" ++ (v0 :: v2)) with
        | some vid => str "https://www.youtube.com/embed/" ++ vid
        | none => str "https://www.youtube.com/watch?v=" ++ (v0 :: v2)) := rfl
  rw [e, hfind]

/-- Short-URL conversion of `youtubeEmbedUrl`. -/
theorem youtubeEmbedUrl_short (v0 : Char) (v2 : Str)
    (hv : ∀ c ∈ (v0 :: v2 : Str), isAlphaNum c = true) :
    youtubeEmbedUrl (str "https://youtu.be/" ++ (v0 :: v2)) =
      str "https://www.youtube.com/embed/" ++ (v0 :: v2) := by
  have hw := no_watch_in_short v0 v2 hv
  have hseg := no_short_in_id v0 v2 hv
  have h2 : containsSub (str "youtu.be/") (str "https://youtu.be/" ++ (v0 :: v2)) = true := rfl
  have h3 : splitFirst (str "youtu.be/") (str "https://youtu.be/" ++ (v0 :: v2)) =
      some (str "https://", (v0 :: v2)) := rfl
  have htw7 : List.takeWhile (fun c => c ≠ '?') (v0 :: v2) = v0 :: v2 :=
    takeWhile_all (fun c hc => by simp [alphaNum_ne '?' (hv c hc) (by decide)])
  unfold youtubeEmbedUrl
  rw [hw, h2, h3]
  simp only [Bool.false_eq_true, if_false, if_true]
  rw [hseg]
  dsimp only
  rw [htw7]

/-- Unrecognized URLs pass through `youtubeEmbedUrl` unchanged. -/
theorem youtubeEmbedUrl_other (url : Str)
    (h1 : containsSub (str "youtube.com/watch") url = false)
    (h2 : containsSub (str "youtu.be/") url = false) :
    youtubeEmbedUrl url = url := by
  unfold youtubeEmbedUrl
  rw [h1, h2]
  simp

/-- The iframe directive wraps `youtubeEmbedUrl` of its title argument as
the `src` attribute. -/
theorem generateDirectiveHtml_iframe (u : Str) :
    generateDirectiveHtml (str "iframe") u [] [] =
      str "<figure class=\"myst-iframe\"" ++ [] ++ str "><iframe src=\"" ++
      youtubeEmbedUrl u ++ str "\" width=\"" ++ str "100%" ++
      str "\" height=\"400\" title=\"" ++ str "Embedded content" ++
      str "\" frameborder=\"0\" allow=\"accelerometer; autoplay; clipboard-write; encrypted-media; gyroscope; picture-in-picture\" allowfullscreen loading=\"lazy\"></iframe>" ++
      [] ++ str "</figure>" := rfl

/-- Within a captured directive body, leading option/blank lines are
consumed as options (trimmed, blanks dropped), and everything from the
first non-option, non-blank line on is body, verbatim. -/
theorem splitOptsBody_spec (b : Str) (rest : List Str)
    (hb1 : isDirOptionShape (trimStr b) = false) (hb2 : trimStr b ≠ []) :
    ∀ opts : List Str,
    (∀ o ∈ opts, isDirOptionShape (trimStr o) = true ∨ trimStr o = []) →
    splitOptsBody (opts ++ b :: rest) =
      ((opts.map trimStr).filter (fun t => isDirOptionShape t), b :: rest) := by
  intro opts
  induction opts with
  | nil =>
    intro _
    simp [splitOptsBody, hb1, hb2]
  | cons o os ih =>
    intro hopts
    have ihv := ih (fun a ha => hopts a (List.mem_cons_of_mem o ha))
    rcases hopts o (List.mem_cons_self o os) with ho | ho
    · rw [List.cons_append]
      simp [splitOptsBody, ho, ihv]
    · have hsh : isDirOptionShape (trimStr o) = false := by rw [ho]; rfl
      rw [List.cons_append]
      simp [splitOptsBody, hsh, ho, ihv,
        show isDirOptionShape ([] : Str) = false from rfl]

/-- C4: within every captured directive block, leading `:name: value`
lines are options only until the first non-option, non-blank line, and
every later line — even one shaped like an option — stays in the body
verbatim (shown both for the splitter on arbitrary inputs and end to end
on a note directive with a `:label:`-shaped line inside its body). -/
theorem c4_directive_options (opts : List Str) (b : Str) (rest : List Str)
    (hopts : ∀ o ∈ opts, isDirOptionShape (trimStr o) = true ∨ trimStr o = [])
    (hb1 : isDirOptionShape (trimStr b) = false) (hb2 : trimStr b ≠ []) :
    splitOptsBody (opts ++ b :: rest) =
      ((opts.map trimStr).filter (fun t => isDirOptionShape t), b :: rest) ∧
    parseMystDirectives
      (str "```\x7bnote\x7d Title\n:class: tip\nBody one.\n:label: late\nBody two.\n```") =
      generateDirectiveHtml (str "note") (str "Title") [str ":class: tip"]
        (str "Body one.\n:label: late\nBody two.") :=
  ⟨splitOptsBody_spec b rest hb1 hb2 opts hopts, by decide⟩

theorem c4_directive_options_witness :
    splitOptsBody ([str ":class: tip", str "  "] ++ (str "Body" :: [str ":label: late"])) =
      (([str ":class: tip", str "  "].map trimStr).filter (fun t => isDirOptionShape t),
        str "Body" :: [str ":label: late"]) :=
  (c4_directive_options [str ":class: tip", str "  "] (str "Body") [str ":label: late"]
    (by decide) (by decide) (by decide)).1

/-- Per-form reference-resolution facts for C2 (one document each). -/

theorem ref_btick : parseMystMath (refDoc EqForm.btick) =
    refDocBlockHtml EqForm.btick ++ str "\nSee " ++ refAnchor (str "myeq") 1 ++
    str " and " ++ refAnchor (str "myeq") 1 ++ str "." := by decide

theorem ref_dlabel : parseMystMath (refDoc EqForm.dlabel) =
    refDocBlockHtml EqForm.dlabel ++ str "\nSee " ++ refAnchor (str "myeq") 1 ++
    str " and " ++ refAnchor (str "myeq") 1 ++ str "." := by decide

theorem ref_amsEq : parseMystMath (refDoc EqForm.amsEq) =
    refDocBlockHtml EqForm.amsEq ++ str "\nSee " ++ refAnchor (str "myeq") 1 ++
    str " and " ++ refAnchor (str "myeq") 1 ++ str "." := by decide

theorem ref_dgeneric : parseMystMath (refDoc EqForm.dgeneric) =
    refDocBlockHtml EqForm.dgeneric ++ str "\nSee " ++ refAnchor (str "myeq") 1 ++
    str " and " ++ refAnchor (str "myeq") 1 ++ str "." := by decide

/-- C2 (amended): a `{eq}` or `[](#...)` reference to a label defined
earlier by a backtick math directive, a `$$ (label)` block, an AMS
environment, or a generic `$$` with `\label` resolves to an anchor showing
the registry number `(1)`; a reference to a label defined nowhere renders
the pending anchor carrying the raw label, for every alphanumeric label. -/
theorem c2_amended (c0 : Char) (l2 : Str)
    (hl : ∀ c ∈ (c0 :: l2 : Str), isAlphaNum c = true) :
    (∀ f ∈ [EqForm.btick, EqForm.dlabel, EqForm.amsEq, EqForm.dgeneric],
      parseMystMath (refDoc f) =
        refDocBlockHtml f ++ str "\nSee " ++ refAnchor (str "myeq") 1 ++
        str " and " ++ refAnchor (str "myeq") 1 ++ str ".") ∧
    parseMystMath (eqRefOnlyDoc (c0 :: l2)) = pendingAnchor (c0 :: l2) :=
  ⟨by
    intro f hf
    simp only [List.mem_cons, List.mem_singleton, List.not_mem_nil,
      or_false] at hf
    rcases hf with rfl | rfl | rfl | rfl
    exacts [ref_btick, ref_dlabel, ref_amsEq, ref_dgeneric],
   eqRef_pending c0 l2 hl⟩

theorem c2_amended_witness :
    parseMystMath (eqRefOnlyDoc ('u' :: str "ndef")) = pendingAnchor ('u' :: str "ndef") :=
  (c2_amended 'u' (str "ndef") (by decide)).2

/-- C9 (amended): the `{keyboard}` role splits its text on `+` and renders
one `<kbd>` per key joined with `&nbsp;+&nbsp;`-free literal ` + `, while the
`{kbd}` role renders the whole text as a single `<kbd>` element. -/
theorem c9_amended (a b : Str) (hane : a ≠ []) (hbne : b ≠ [])
    (ha : ∀ c ∈ a, isAlphaNum c = true) (hb : ∀ c ∈ b, isAlphaNum c = true) :
    parseMystRoles (str "\x7bkeyboard\x7d`" ++ ((a ++ '+' :: b) ++ str "`")) =
      str "<kbd>" ++ a ++ str "</kbd>" ++ str " + " ++ str "<kbd>" ++ b ++
      str "</kbd>" ∧
    parseMystRoles (str "\x7bkbd\x7d`" ++ ((a ++ '+' :: b) ++ str "`")) =
      str "<kbd>" ++ (a ++ '+' :: b) ++ str "</kbd>" :=
  ⟨keyboard_role_splits a b hane hbne ha hb, kbd_role_single a b hane hbne ha hb⟩

theorem c9_amended_witness :
    parseMystRoles (str "\x7bkeyboard\x7d`" ++ ((str "Ctrl" ++ '+' :: str "C") ++ str "`")) =
      str "<kbd>" ++ str "Ctrl" ++ str "</kbd>" ++ str " + " ++ str "<kbd>" ++
      str "C" ++ str "</kbd>" :=
  (c9_amended (str "Ctrl") (str "C") (by decide) (by decide) (by decide) (by decide)).1

theorem figure_target_not_found_witness :
    parseMystFigures
      (str "```\x7bfigure\x7d #" ++ (('i' :: str "mg1") ++ str "\nCap\n```")) =
      str "<figure class=\"myst-figure\"><div class=\"figure-error\">Image target not found</div><figcaption>Cap</figcaption></figure>" :=
  figure_target_not_found 'i' (str "mg1") (by decide)

/-- C10: the iframe directive embeds `youtubeEmbedUrl` of its title
argument as the `src`; a `youtube.com/watch?v=` URL and a `youtu.be/`
short URL both become `https://www.youtube.com/embed/<id>`, and a URL
containing neither marker passes through unchanged. -/
theorem c10_iframe_youtube (v0 : Char) (v2 : Str)
    (hv : ∀ c ∈ (v0 :: v2 : Str), isAlphaNum c = true)
    (url : Str)
    (h1 : containsSub (str "youtube.com/watch") url = false)
    (h2 : containsSub (str "youtu.be/") url = false) :
    (∀ u : Str, generateDirectiveHtml (str "iframe") u [] [] =
      str "<figure class=\"myst-iframe\"" ++ [] ++ str "><iframe src=\"" ++
      youtubeEmbedUrl u ++ str "\" width=\"" ++ str "100%" ++
      str "\" height=\"400\" title=\"" ++ str "Embedded content" ++
      str "\" frameborder=\"0\" allow=\"accelerometer; autoplay; clipboard-write; encrypted-media; gyroscope; picture-in-picture\" allowfullscreen loading=\"lazy\"></iframe>" ++
      [] ++ str "</figure>") ∧
    youtubeEmbedUrl (str "https://www.youtube.com/watch?v=" ++ (v0 :: v2)) =
      str "https://www.youtube.com/embed/" ++ (v0 :: v2) ∧
    youtubeEmbedUrl (str "https://youtu.be/" ++ (v0 :: v2)) =
      str "https://www.youtube.com/embed/" ++ (v0 :: v2) ∧
    youtubeEmbedUrl url = url :=
  ⟨generateDirectiveHtml_iframe, youtubeEmbedUrl_watch v0 v2 hv,
   youtubeEmbedUrl_short v0 v2 hv, youtubeEmbedUrl_other url h1 h2⟩

theorem c10_iframe_youtube_witness :
    youtubeEmbedUrl (str "https://www.youtube.com/watch?v=" ++ ('a' :: str "bc123")) =
      str "https://www.youtube.com/embed/" ++ ('a' :: str "bc123") ∧
    youtubeEmbedUrl (str "https://youtu.be/" ++ ('a' :: str "bc123")) =
      str "https://www.youtube.com/embed/" ++ ('a' :: str "bc123") ∧
    youtubeEmbedUrl (str "https://player.vimeo.com/video/76979871") =
      str "https://player.vimeo.com/video/76979871" :=
  ⟨(c10_iframe_youtube 'a' (str "bc123") (by decide)
      (str "https://player.vimeo.com/video/76979871") (by decide) (by decide)).2.1,
   (c10_iframe_youtube 'a' (str "bc123") (by decide)
      (str "https://player.vimeo.com/video/76979871") (by decide) (by decide)).2.2.1,
   (c10_iframe_youtube 'a' (str "bc123") (by decide)
      (str "https://player.vimeo.com/video/76979871") (by decide) (by decide)).2.2.2⟩
